import Mathlib

/-!
# Service-zone lookup (`CORRECTED_zones.ts`)

A shallow embedding of the zone module of the taxi booking front end: the
conversion of backend zones, the ray-casting containment test, the cached zone
fetch and the coverage decision.

Conventions of the embedding:

* a JavaScript `number` is an exact rational (`ℚ`); `Date.now()` is an `Int`
  (milliseconds);
* the module-level variables `zonesCache` and `lastZonesFetch` are the two
  fields of `CacheState`, passed in and out of every function that reads or
  writes them;
* what the network delivers to one `getActiveZones` call is an explicit
  argument (`FetchOutcome`), and the result records whether the call reached
  `fetch` at all.
-/

namespace Zones

/-! ## Data model -/

/-- The type `Coordinates` of `../types`: a latitude and a longitude. -/
structure Coordinates where
  lat : ℚ
  lng : ℚ
deriving DecidableEq

/-- The `rings` member of `Zone`. -/
structure Rings where
  inner : List Coordinates
  outer : List Coordinates
deriving DecidableEq

/-- The `interface Zone`. -/
structure Zone where
  id : ℚ
  name : String
  polygon : List Coordinates
  rings : Rings
  active : Bool
  center_lat : ℚ
  center_lng : ℚ
  radius_km : ℚ
  number_of_rings : ℚ
  ring_radius_meters : ℚ
  ring_wait_time_seconds : ℚ
  expansion_delay_sec : ℚ
  priority_order : ℚ
deriving DecidableEq

/-- The `interface BackendZone`. `polygon_coordinates` is `none` when the member is
`null` or absent, the case `convertZone` provides for with `|| []`; each entry
is a `[lat, lng]` pair. -/
structure BackendZone where
  id : ℚ
  zone_name : String
  polygon_coordinates : Option (List (ℚ × ℚ))
  is_active : Bool
  center_lat : ℚ
  center_lng : ℚ
  radius_km : ℚ
  number_of_rings : ℚ
  ring_radius_meters : ℚ
  ring_wait_time_seconds : ℚ
  expansion_delay_sec : ℚ
  priority_order : ℚ
deriving DecidableEq

/-- The `data` member of `BackendZoneResponse`. -/
structure BackendZoneData where
  zones : List BackendZone
deriving DecidableEq

/-- The `interface BackendZoneResponse`. -/
structure BackendZoneResponse where
  status : String
  message : String
  data : BackendZoneData
deriving DecidableEq

/-! ## Conversion -/

/-- The function `convertCoordinates`:
`backendCoords.map(([lat, lng]) => ({ lat, lng }))`. -/
def convertCoordinates (backendCoords : List (ℚ × ℚ)) : List Coordinates :=
  backendCoords.map fun p => { lat := p.1, lng := p.2 }

/-- The function `convertZone`. -/
def convertZone (backendZone : BackendZone) : Zone :=
  { id := backendZone.id
    name := backendZone.zone_name
    polygon := convertCoordinates (backendZone.polygon_coordinates.getD [])
    rings := { inner := [], outer := [] }
    active := backendZone.is_active
    center_lat := backendZone.center_lat
    center_lng := backendZone.center_lng
    radius_km := backendZone.radius_km
    number_of_rings := backendZone.number_of_rings
    ring_radius_meters := backendZone.ring_radius_meters
    ring_wait_time_seconds := backendZone.ring_wait_time_seconds
    expansion_delay_sec := backendZone.expansion_delay_sec
    priority_order := backendZone.priority_order }

/-! ## Point in polygon -/

/-- The condition of the `if` in the loop body of `isPointInPolygon`, for the
vertices `pi = polygon[i]` and `pj = polygon[j]`:
`((yi > lat) !== (yj > lat)) && (lng < (xj - xi) * (lat - yi) / (yj - yi) + xi)`. -/
def edgeToggles (point pi pj : Coordinates) : Bool :=
  let xi := pi.lng
  let yi := pi.lat
  let xj := pj.lng
  let yj := pj.lat
  (decide (yi > point.lat) != decide (yj > point.lat)) &&
    decide (point.lng < (xj - xi) * (point.lat - yi) / (yj - yi) + xi)

/-- The `for (let i = 0, j = polygon.length - 1; i < polygon.length; j = i++)`
loop of `isPointInPolygon`, from the state `(i, j, inside)`. -/
def isPointInPolygon.loop (point : Coordinates) (polygon : List Coordinates)
    (i : Nat) (j : Fin polygon.length) (inside : Bool) : Bool :=
  if h : i < polygon.length then
    isPointInPolygon.loop point polygon (i + 1) ⟨i, h⟩
      (if edgeToggles point (polygon.get ⟨i, h⟩) (polygon.get j) then !inside else inside)
  else inside
termination_by polygon.length - i

/-- The function `isPointInPolygon`: ray casting. -/
def isPointInPolygon (point : Coordinates) (polygon : List Coordinates) : Bool :=
  if h : polygon.length < 3 then false
  else isPointInPolygon.loop point polygon 0 ⟨polygon.length - 1, by omega⟩ false

/-- The function `isPickupInServiceZone`. -/
def isPickupInServiceZone (pickup : Coordinates) : List Zone → Bool
  | [] => false
  | zone :: rest =>
    if zone.active && decide (zone.polygon.length > 0) && isPointInPolygon pickup zone.polygon then
      true
    else isPickupInServiceZone pickup rest

/-! ## Zone cache -/

/-- The module-level variables `zonesCache` and `lastZonesFetch`. The type `Z`
of the cached zones is `Zone` wherever the backend keeps to its declared
interface; it is a parameter so that the same cache logic also describes a call
whose response body is arbitrary JSON. -/
structure CacheState (Z : Type) where
  zonesCache : Option (List Z)
  lastZonesFetch : Int
deriving DecidableEq

/-- The state the module is loaded with: `zonesCache = null`, `lastZonesFetch = 0`. -/
def CacheState.initial {Z : Type} : CacheState Z :=
  { zonesCache := none, lastZonesFetch := 0 }

/-- The constant `ZONES_CACHE_DURATION = 5 * 60 * 1000`. -/
def ZONES_CACHE_DURATION : Int := 5 * 60 * 1000

/-- What the awaited operations of the `try` block deliver to one call; `β` is
the type of the parsed body. -/
inductive FetchOutcome (β : Type) where
  /-- The call `fetch(...)` rejects (network error). -/
  | rejected
  /-- The response arrives with `response.ok` false. -/
  | notOk (status : Nat) (statusText : String)
  /-- The call `response.json()` rejects: the body is not JSON. -/
  | unparsable
  /-- The response is ok and `response.json()` resolves to `backendResponse`. -/
  | body (backendResponse : β)
deriving DecidableEq

/-- The result of one `getActiveZones` call: the zones the promise resolves to,
the module state after the call, and whether the call reached `fetch`. -/
structure ActiveZonesResult (Z : Type) where
  zones : List Z
  state : CacheState Z
  fetched : Bool
deriving DecidableEq

/-- The control flow of `getActiveZones` around the `try` block: the cache
test, the cache update after the block, and the `catch` handler. `attempt` is
what the block yields when it is entered: the error it throws, or `activeZones`. -/
def getActiveZones.around {Z : Type} (s : CacheState Z) (now : Int)
    (attempt : Except String (List Z)) : ActiveZonesResult Z :=
  match s.zonesCache, decide (now - s.lastZonesFetch < ZONES_CACHE_DURATION) with
  | some cached, true => { zones := cached, state := s, fetched := false }
  | _, _ =>
    match attempt with
    | .ok activeZones =>
      { zones := activeZones
        state := { zonesCache := some activeZones, lastZonesFetch := now }
        fetched := true }
    | .error _ =>
      match s.zonesCache with
      | some cached => { zones := cached, state := s, fetched := true }
      | none => { zones := [], state := s, fetched := true }

/-- The body of the `try` block of `getActiveZones` up to the cache update, for
a body of the declared type `BackendZoneResponse`. -/
def getActiveZones.refresh : FetchOutcome BackendZoneResponse → Except String (List Zone)
  | .rejected => .error "fetch rejected"
  | .notOk status statusText => .error ("HTTP " ++ toString status ++ ": " ++ statusText)
  | .unparsable => .error "invalid JSON"
  | .body backendResponse =>
    if backendResponse.status ≠ "success" then
      .error ("Backend error: " ++ backendResponse.message)
    else
      let allZones := backendResponse.data.zones.map convertZone
      let activeZones := allZones.filter fun zone => zone.active
      .ok activeZones

/-- The function `getActiveZones`, called in state `s` when `Date.now()` reads `now` and the
network would answer with `outcome`. -/
def getActiveZones (s : CacheState Zone) (now : Int)
    (outcome : FetchOutcome BackendZoneResponse) : ActiveZonesResult Zone :=
  getActiveZones.around s now (getActiveZones.refresh outcome)

/-- The function `clearZonesCache`. -/
def clearZonesCache {Z : Type} (_s : CacheState Z) : CacheState Z :=
  { zonesCache := none, lastZonesFetch := 0 }

/-! ## Coverage decision -/

/-- The `interface ZoneCoverage`; an absent optional member is `none`. -/
structure ZoneCoverage where
  inServiceZone : Bool
  zone : Option Zone
  message : Option String
deriving DecidableEq

/-- The `for (const zone of zones)` loop of `checkZoneCoverage` together with
the `return` that follows it. -/
def checkZoneCoverage.scan (pickup : Coordinates) : List Zone → ZoneCoverage
  | [] =>
    { inServiceZone := false
      zone := none
      message := some "We are currently not operating in this area." }
  | zone :: rest =>
    if zone.active && decide (zone.polygon.length > 0) && isPointInPolygon pickup zone.polygon then
      { inServiceZone := true, zone := some zone, message := none }
    else checkZoneCoverage.scan pickup rest

/-- The part of `checkZoneCoverage` that follows `await getActiveZones()`. -/
def checkZoneCoverage.result (pickup : Coordinates) (zones : List Zone) : ZoneCoverage :=
  if zones.length = 0 then
    { inServiceZone := false
      zone := none
      message := some "Unable to check service zones. Please try again." }
  else checkZoneCoverage.scan pickup zones

/-- The function `checkZoneCoverage`: the coverage it resolves to and the module
state it leaves, for the call context of `getActiveZones`. -/
def checkZoneCoverage (s : CacheState Zone) (now : Int)
    (outcome : FetchOutcome BackendZoneResponse) (pickup : Coordinates) :
    ZoneCoverage × CacheState Zone :=
  let r := getActiveZones s now outcome
  (checkZoneCoverage.result pickup r.zones, r.state)

/-! ## The refresh at run time

TypeScript's interfaces are erased: `response.json()` resolves to whatever JSON
the body holds, and the `try` block runs on it unchecked. This section follows
the block on an arbitrary JSON value, to the point where it either throws or
has built `activeZones`. The members of the zones it builds hold whatever the
body held, so they are `JsValue`s and not numbers or strings.
-/

/-- A JavaScript value as `JSON.parse` can produce it, and `undefined`, which
reading an absent member yields. The members of an `object` are those of the
parsed object (one entry per key). -/
inductive JsValue where
  | undefined
  | null
  | bool (b : Bool)
  | number (q : ℚ)
  | string (s : String)
  | array (items : List JsValue)
  | object (members : List (String × JsValue))

/-- The member read `v.key`, for the member names this module reads (`status`,
`data`, `zones`, `id`, `zone_name`, ...; none is a member of a built-in
prototype): a `TypeError` on `undefined` and `null`, the member of an object
when it has one, `undefined` otherwise. -/
def JsValue.member (v : JsValue) (key : String) : Except String JsValue :=
  match v with
  | .undefined => .error "TypeError: cannot read properties of undefined"
  | .null => .error "TypeError: cannot read properties of null"
  | .object members => .ok ((members.lookup key).getD .undefined)
  | _ => .ok .undefined

/-- Truthiness (`ToBoolean`). -/
def JsValue.truthy : JsValue → Bool
  | .undefined => false
  | .null => false
  | .bool b => b
  | .number q => decide (q ≠ 0)
  | .string s => decide (s ≠ "")
  | .array _ => true
  | .object _ => true

/-- The method `Array.prototype.map` with a callback that may throw: the first throw ends
the call. -/
def arrayMap {β : Type} (f : JsValue → Except String β) :
    List JsValue → Except String (List β)
  | [] => .ok []
  | x :: xs =>
    match f x with
    | .error e => .error e
    | .ok y =>
      match arrayMap f xs with
      | .error e => .error e
      | .ok ys => .ok (y :: ys)

/-- The call `v.map(f)`: only an array has a callable `map`. -/
def JsValue.map {β : Type} (v : JsValue) (f : JsValue → Except String β) :
    Except String (List β) :=
  match v with
  | .array items => arrayMap f items
  | .undefined => .error "TypeError: cannot read properties of undefined"
  | .null => .error "TypeError: cannot read properties of null"
  | _ => .error "TypeError: map is not a function"

/-- The object `({ lat, lng })` that the callback of `convertCoordinates` builds. -/
structure RuntimeCoordinates where
  lat : JsValue
  lng : JsValue

/-- The `rings` member of a zone object. -/
structure RuntimeRings where
  inner : List RuntimeCoordinates
  outer : List RuntimeCoordinates

/-- The object that `convertZone` builds. -/
structure RuntimeZone where
  id : JsValue
  name : JsValue
  polygon : List RuntimeCoordinates
  rings : RuntimeRings
  active : JsValue
  center_lat : JsValue
  center_lng : JsValue
  radius_km : JsValue
  number_of_rings : JsValue
  ring_radius_meters : JsValue
  ring_wait_time_seconds : JsValue
  expansion_delay_sec : JsValue
  priority_order : JsValue

/-- The parameter pattern `[lat, lng]` applied to `v`: the first two values
that iterating `v` yields (`undefined` where it yields fewer). Arrays and
strings are iterable; a string yields its characters. -/
def destructurePair : JsValue → Except String (JsValue × JsValue)
  | .array items => .ok (items.getD 0 .undefined, items.getD 1 .undefined)
  | .string s =>
    .ok (((s.data.get? 0).map fun c => JsValue.string (String.singleton c)).getD .undefined,
         ((s.data.get? 1).map fun c => JsValue.string (String.singleton c)).getD .undefined)
  | _ => .error "TypeError: value is not iterable"

/-- The function `convertCoordinates` at run time. -/
def convertCoordinatesRuntime (backendCoords : JsValue) :
    Except String (List RuntimeCoordinates) :=
  backendCoords.map fun pair =>
    match destructurePair pair with
    | .error e => .error e
    | .ok (lat, lng) => .ok { lat := lat, lng := lng }

/-- The function `convertZone` at run time. -/
def convertZoneRuntime (backendZone : JsValue) : Except String RuntimeZone := do
  let id ← backendZone.member "id"
  let zone_name ← backendZone.member "zone_name"
  let polygon_coordinates ← backendZone.member "polygon_coordinates"
  let polygon ← convertCoordinatesRuntime
    (if polygon_coordinates.truthy then polygon_coordinates else .array [])
  let is_active ← backendZone.member "is_active"
  let center_lat ← backendZone.member "center_lat"
  let center_lng ← backendZone.member "center_lng"
  let radius_km ← backendZone.member "radius_km"
  let number_of_rings ← backendZone.member "number_of_rings"
  let ring_radius_meters ← backendZone.member "ring_radius_meters"
  let ring_wait_time_seconds ← backendZone.member "ring_wait_time_seconds"
  let expansion_delay_sec ← backendZone.member "expansion_delay_sec"
  let priority_order ← backendZone.member "priority_order"
  pure
    { id := id
      name := zone_name
      polygon := polygon
      rings := { inner := [], outer := [] }
      active := is_active
      center_lat := center_lat
      center_lng := center_lng
      radius_km := radius_km
      number_of_rings := number_of_rings
      ring_radius_meters := ring_radius_meters
      ring_wait_time_seconds := ring_wait_time_seconds
      expansion_delay_sec := expansion_delay_sec
      priority_order := priority_order }

/-- The test `v !== 'success'`. -/
def JsValue.isNotSuccess : JsValue → Bool
  | .string s => decide (s ≠ "success")
  | _ => true

/-- The body of the `try` block of `getActiveZones` up to the cache update, on
whatever JSON the response holds. -/
def getActiveZones.refreshRuntime : FetchOutcome JsValue → Except String (List RuntimeZone)
  | .rejected => .error "fetch rejected"
  | .notOk status statusText => .error ("HTTP " ++ toString status ++ ": " ++ statusText)
  | .unparsable => .error "invalid JSON"
  | .body backendResponse => do
    let status ← backendResponse.member "status"
    if status.isNotSuccess then
      throw "Backend error"
    let data ← backendResponse.member "data"
    let zones ← data.member "zones"
    let allZones ← zones.map convertZoneRuntime
    let activeZones := allZones.filter fun zone => zone.active.truthy
    pure activeZones

/-- The function `getActiveZones` at run time: the same control flow around the `try` block. -/
def getActiveZonesRuntime (s : CacheState RuntimeZone) (now : Int)
    (outcome : FetchOutcome JsValue) : ActiveZonesResult RuntimeZone :=
  getActiveZones.around s now (getActiveZones.refreshRuntime outcome)

/-- The ways a refresh fails on a parsed body: `status` is not the string
'success', there is no array at `data.zones`, or `convertZone` throws on an
entry of that array. -/
def bodyFails (backendResponse : JsValue) : Prop :=
  backendResponse.member "status" ≠ .ok (.string "success")
    ∨ (∀ items, (backendResponse.member "data" >>= fun data => data.member "zones")
        ≠ .ok (.array items))
    ∨ (∃ items, (backendResponse.member "data" >>= fun data => data.member "zones")
          = .ok (.array items)
        ∧ ∃ entry ∈ items, ∀ zone, convertZoneRuntime entry ≠ .ok zone)

/-- The refresh fails: the fetch rejects, the response is not ok, the body is
not JSON, or the parsed body fails as `bodyFails` says. -/
def refreshFails : FetchOutcome JsValue → Prop
  | .rejected => True
  | .notOk _ _ => True
  | .unparsable => True
  | .body backendResponse => bodyFails backendResponse

/-- The zone entries on which `convertZone` throws: `null` (and `undefined`),
an entry whose `polygon_coordinates` is truthy and not an array, and an entry
whose `polygon_coordinates` is an array with an element that is not iterable. -/
def convertZoneThrows (entry : JsValue) : Prop :=
  entry = .undefined ∨ entry = .null
    ∨ ∃ coordinates, entry.member "polygon_coordinates" = .ok coordinates
        ∧ coordinates.truthy = true
        ∧ ((∀ items, coordinates ≠ .array items)
          ∨ ∃ items, coordinates = .array items
              ∧ ∃ pair ∈ items, ∀ r, destructurePair pair ≠ .ok r)

/-! ## Values of the declared types, at run time -/

/-- A `Coordinates` object as a run-time value. -/
def Coordinates.toRuntime (c : Coordinates) : RuntimeCoordinates :=
  { lat := .number c.lat, lng := .number c.lng }

/-- A `Zone` object as a run-time value. -/
def Zone.toRuntime (z : Zone) : RuntimeZone :=
  { id := .number z.id
    name := .string z.name
    polygon := z.polygon.map Coordinates.toRuntime
    rings :=
      { inner := z.rings.inner.map Coordinates.toRuntime
        outer := z.rings.outer.map Coordinates.toRuntime }
    active := .bool z.active
    center_lat := .number z.center_lat
    center_lng := .number z.center_lng
    radius_km := .number z.radius_km
    number_of_rings := .number z.number_of_rings
    ring_radius_meters := .number z.ring_radius_meters
    ring_wait_time_seconds := .number z.ring_wait_time_seconds
    expansion_delay_sec := .number z.expansion_delay_sec
    priority_order := .number z.priority_order }

/-- The JSON of a `BackendZone`. -/
def BackendZone.toJson (z : BackendZone) : JsValue :=
  .object
    [("id", .number z.id),
     ("zone_name", .string z.zone_name),
     ("polygon_coordinates",
        match z.polygon_coordinates with
        | none => .null
        | some pairs => .array (pairs.map fun p => .array [.number p.1, .number p.2])),
     ("is_active", .bool z.is_active),
     ("center_lat", .number z.center_lat),
     ("center_lng", .number z.center_lng),
     ("radius_km", .number z.radius_km),
     ("number_of_rings", .number z.number_of_rings),
     ("ring_radius_meters", .number z.ring_radius_meters),
     ("ring_wait_time_seconds", .number z.ring_wait_time_seconds),
     ("expansion_delay_sec", .number z.expansion_delay_sec),
     ("priority_order", .number z.priority_order)]

/-- The JSON of a `BackendZoneResponse`. -/
def BackendZoneResponse.toJson (b : BackendZoneResponse) : JsValue :=
  .object
    [("status", .string b.status),
     ("message", .string b.message),
     ("data", .object [("zones", .array (b.data.zones.map BackendZone.toJson))])]

/-- The same answer of the network, its body as JSON. -/
def FetchOutcome.toJson : FetchOutcome BackendZoneResponse → FetchOutcome JsValue
  | .rejected => .rejected
  | .notOk status statusText => .notOk status statusText
  | .unparsable => .unparsable
  | .body b => .body b.toJson

/-- A cache of `Zone` objects as run-time values. -/
def CacheState.toRuntime (s : CacheState Zone) : CacheState RuntimeZone :=
  { zonesCache := s.zonesCache.map (List.map Zone.toRuntime)
    lastZonesFetch := s.lastZonesFetch }

/-! ## The admin page's polygon encoder (`temp_js_check.js`) -/

/-- The loop `for (let i = 0; i < path.getLength(); i++)` of the
'polygoncomplete' handler, which pushes `[point.lat(), point.lng()]` for
`point = path.getAt(i)`; a point of the path is a `Coordinates`. -/
def polygoncomplete.loop (path : List Coordinates) (i : Nat)
    (polygonCoordinates : List (ℚ × ℚ)) : List (ℚ × ℚ) :=
  if h : i < path.length then
    polygoncomplete.loop path (i + 1)
      (polygonCoordinates ++ [((path.get ⟨i, h⟩).lat, (path.get ⟨i, h⟩).lng)])
  else polygonCoordinates
termination_by path.length - i

/-- The value of `polygonCoordinates` that the 'polygoncomplete' handler builds
from the path of the drawn polygon, and that the form submits as
`polygon_coordinates`. -/
def polygoncomplete.polygonCoordinates (path : List Coordinates) : List (ℚ × ℚ) :=
  polygoncomplete.loop path 0 []

/-! ## The connection test -/

/-- The expression `await getActiveZones()` as a caller's `try` block sees it.
The promise always resolves: inside `getActiveZones` every statement that can
throw is in its `try` block, and its `catch` handler returns a value. -/
def getActiveZones.awaited (s : CacheState Zone) (now : Int)
    (outcome : FetchOutcome BackendZoneResponse) : Except String (ActiveZonesResult Zone) :=
  .ok (getActiveZones s now outcome)

/-- The function `testZoneConnection`: the boolean it resolves to and the module
state it leaves. -/
def testZoneConnection (s : CacheState Zone) (now : Int)
    (outcome : FetchOutcome BackendZoneResponse) : Bool × CacheState Zone :=
  match getActiveZones.awaited s now outcome with
  | .ok r => (true, r.state)
  | .error _ => (false, s)

/-! ## The latitude guard and the division it protects -/

/-- The left operand of `&&` in the loop body of `isPointInPolygon`:
`(yi > lat) !== (yj > lat)`. -/
def latitudeGuard (lat yi yj : ℚ) : Bool :=
  decide (yi > lat) != decide (yj > lat)

/-- Division that fails on a zero divisor. -/
def checkedDivide (a b : ℚ) : Option ℚ :=
  if b = 0 then none else some (a / b)

/-- The condition of the `if` in the loop body of `isPointInPolygon`, evaluated
as JavaScript does: `&&` evaluates its right operand, and with it the division
by `yj - yi`, only when the left operand is true. The result is `none` when a
division by zero is evaluated. -/
def edgeToggles.checked (point pi pj : Coordinates) : Option Bool :=
  let xi := pi.lng
  let yi := pi.lat
  let xj := pj.lng
  let yj := pj.lat
  if (decide (yi > point.lat) != decide (yj > point.lat)) = true then
    match checkedDivide ((xj - xi) * (point.lat - yi)) (yj - yi) with
    | none => none
    | some q => some (decide (point.lng < q + xi))
  else some false

/-- The loop of `isPointInPolygon` with the checked condition. -/
def isPointInPolygon.checkedLoop (point : Coordinates) (polygon : List Coordinates)
    (i : Nat) (j : Fin polygon.length) (inside : Bool) : Option Bool :=
  if h : i < polygon.length then
    match edgeToggles.checked point (polygon.get ⟨i, h⟩) (polygon.get j) with
    | none => none
    | some toggles =>
      isPointInPolygon.checkedLoop point polygon (i + 1) ⟨i, h⟩
        (if toggles then !inside else inside)
  else some inside
termination_by polygon.length - i

/-- The function `isPointInPolygon` with the checked condition: `none` when some
division by zero is evaluated on the way. -/
def isPointInPolygon.checked (point : Coordinates) (polygon : List Coordinates) : Option Bool :=
  if h : polygon.length < 3 then some false
  else isPointInPolygon.checkedLoop point polygon 0 ⟨polygon.length - 1, by omega⟩ false

/-! ## The containment test as the specification words it (§4.3) -/

/-- The interpolation of the specification:
`lngⱼ + (lngᵢ − lngⱼ) * (lat − latⱼ) / (latᵢ − latⱼ)`. -/
def specInterpolatedLng (lat : ℚ) (pi pj : Coordinates) : ℚ :=
  pj.lng + (pi.lng - pj.lng) * (lat - pj.lat) / (pi.lat - pj.lat)

/-- The toggle condition of the specification for the edge `(p[i], p[j])`:
`(latᵢ > lat) != (latⱼ > lat)` and `lng < interpolated_x`. -/
def specEdgeToggles (point pi pj : Coordinates) : Bool :=
  (decide (pi.lat > point.lat) != decide (pj.lat > point.lat)) &&
    decide (point.lng < specInterpolatedLng point.lat pi pj)

/-- The specification's `j`: the previous index, wrapping. -/
def specPreviousIndex (n i : Nat) : Nat :=
  (i + n - 1) % n

/-- The specification's "inside" flag after the edges of the indices below `k`
have been visited, starting from false. -/
def specInsideAfter (point : Coordinates) (polygon : List Coordinates) : Nat → Bool
  | 0 => false
  | k + 1 =>
    match polygon[k]?, polygon[specPreviousIndex polygon.length k]? with
    | some pi, some pj =>
      if specEdgeToggles point pi pj then !specInsideAfter point polygon k
      else specInsideAfter point polygon k
    | _, _ => specInsideAfter point polygon k

/-- The even-odd ray casting of the specification: false below 3 points,
otherwise the flag after all edges. -/
def specIsPointInPolygon (point : Coordinates) (polygon : List Coordinates) : Bool :=
  if polygon.length < 3 then false else specInsideAfter point polygon polygon.length

/-! ## Definitions used in the proofs and the examples -/

/-- Parity of the toggling edges met when the loop walks `rest` with `prev` as
the vertex before its head. -/
def crossings (point : Coordinates) : Coordinates → List Coordinates → Bool
  | _, [] => false
  | prev, cur :: rest => xor (edgeToggles point cur prev) (crossings point cur rest)

/-- Parity of the toggling edges along an open path of vertices. -/
def pathParity (point : Coordinates) : List Coordinates → Bool
  | [] => false
  | a :: t => crossings point a t

/-- Parity of the toggling edges around the closed cycle of a vertex list:
what the loop of `isPointInPolygon` computes. -/
def cycleParity (point : Coordinates) : List Coordinates → Bool
  | [] => false
  | a :: t => xor (edgeToggles point a ((a :: t).getLast (List.cons_ne_nil a t)))
      (crossings point a t)

/-- The test of the `if` inside the loops of `checkZoneCoverage` and
`isPickupInServiceZone`. -/
def zoneMatches (pickup : Coordinates) (zone : Zone) : Bool :=
  zone.active && decide (zone.polygon.length > 0) && isPointInPolygon pickup zone.polygon

/-- The vertex list `(a,b), (a,d), (c,d), (c,b)` in `[lat, lng]`. -/
def rectangle (a b c d : ℚ) : List Coordinates :=
  [⟨a, b⟩, ⟨a, d⟩, ⟨c, d⟩, ⟨c, b⟩]

/-- A zone whose polygon is a rectangle; the remaining members are fixed. -/
def rectangleZone (id : ℚ) (name : String) (active : Bool) (a b c d : ℚ) : Zone :=
  { id := id
    name := name
    polygon := rectangle a b c d
    rings := { inner := [], outer := [] }
    active := active
    center_lat := (a + c) / 2
    center_lng := (b + d) / 2
    radius_km := 1
    number_of_rings := 3
    ring_radius_meters := 500
    ring_wait_time_seconds := 15
    expansion_delay_sec := 15
    priority_order := 1 }

/-- The backend zone that `convertZone` turns into `rectangleZone`. -/
def rectangleBackendZone (id : ℚ) (name : String) (active : Bool) (a b c d : ℚ) : BackendZone :=
  { id := id
    zone_name := name
    polygon_coordinates := some [(a, b), (a, d), (c, d), (c, b)]
    is_active := active
    center_lat := (a + c) / 2
    center_lng := (b + d) / 2
    radius_km := 1
    number_of_rings := 3
    ring_radius_meters := 500
    ring_wait_time_seconds := 15
    expansion_delay_sec := 15
    priority_order := 1 }

/-- A zone object with an empty polygon, for examples. -/
def sampleRuntimeZone : RuntimeZone :=
  { id := .number 1
    name := .string "A"
    polygon := []
    rings := { inner := [], outer := [] }
    active := .bool true
    center_lat := .number 0
    center_lng := .number 0
    radius_km := .number 1
    number_of_rings := .number 3
    ring_radius_meters := .number 500
    ring_wait_time_seconds := .number 15
    expansion_delay_sec := .number 15
    priority_order := .number 1 }

/-- A `success` response that lists the active zone "A", the inactive zone "B"
and the active zone "C", in this order. -/
def sampleResponse : BackendZoneResponse :=
  { status := "success"
    message := "ok"
    data :=
      { zones :=
          [rectangleBackendZone 1 "A" true 0 0 10 10,
           rectangleBackendZone 2 "B" false 20 20 30 30,
           rectangleBackendZone 3 "C" true 5 5 15 15] } }

/-- A state whose snapshot, the single zone "old", was fetched at time 0. -/
def sampleState : CacheState Zone :=
  { zonesCache := some [rectangleZone 7 "old" true 0 0 1 1], lastZonesFetch := 0 }

/-! ## Sequences of calls on the cache -/

/-- A call that reads or writes the module state: `getActiveZones()`, made when
`Date.now()` reads `now` and the network would answer with `outcome`, or
`clearZonesCache()`. -/
inductive CacheCall where
  | getActiveZones (now : Int) (outcome : FetchOutcome BackendZoneResponse)
  | clearZonesCache

/-- The module state after one call. -/
def CacheCall.run (s : CacheState Zone) : CacheCall → CacheState Zone
  | .getActiveZones now outcome => (Zones.getActiveZones s now outcome).state
  | .clearZonesCache => Zones.clearZonesCache s

/-- The module state after a sequence of calls, the first call first. -/
def runCalls (s : CacheState Zone) : List CacheCall → CacheState Zone
  | [] => s
  | call :: rest => runCalls (call.run s) rest

/-- The cache invariant: every zone of the snapshot is active, and
`lastZonesFetch` is 0 while there is no snapshot. -/
def CacheInvariant (s : CacheState Zone) : Prop :=
  (∀ zones, s.zonesCache = some zones → ∀ z ∈ zones, z.active = true)
    ∧ (s.zonesCache = none → s.lastZonesFetch = 0)

/-! ## The earlier version of the module (`attached_assets/zones_1752499723287.ts`) -/

/-- The `interface Zone` of the earlier version. -/
structure Attached.Zone where
  id : String
  name : String
  polygon : List Coordinates
  rings : Rings
  active : Bool

/-- The read `polygon[j]` for an index that may be -1: `undefined` (`none`)
outside the array. -/
def Attached.elementAt (polygon : List Coordinates) (j : Int) : Option Coordinates :=
  if 0 ≤ j then polygon[j.toNat]? else none

/-- The loop of the earlier `isPointInPolygon`, from the state `(i, j, inside)`.
The result is `none` when `polygon[j]` is `undefined`, so that reading its `lng`
throws. -/
def Attached.isPointInPolygon.loop (point : Coordinates) (polygon : List Coordinates)
    (i : Nat) (j : Int) (inside : Bool) : Option Bool :=
  if h : i < polygon.length then
    match Attached.elementAt polygon j with
    | none => none
    | some pj =>
      Attached.isPointInPolygon.loop point polygon (i + 1) (i : Int)
        (if edgeToggles point (polygon.get ⟨i, h⟩) pj then !inside else inside)
  else some inside
termination_by polygon.length - i

/-- The earlier `isPointInPolygon`: the same loop, entered without a test of
the length, with `j = polygon.length - 1`. -/
def Attached.isPointInPolygon (point : Coordinates) (polygon : List Coordinates) :
    Option Bool :=
  Attached.isPointInPolygon.loop point polygon 0 ((polygon.length : Int) - 1) false

/-- The earlier `isPickupInServiceZone`, whose test is
`zone.active && isPointInPolygon(pickup, zone.polygon)`. -/
def Attached.isPickupInServiceZone (pickup : Coordinates) :
    List Attached.Zone → Option Bool
  | [] => some false
  | zone :: rest =>
    if zone.active then
      match Attached.isPointInPolygon pickup zone.polygon with
      | none => none
      | some true => some true
      | some false => Attached.isPickupInServiceZone pickup rest
    else Attached.isPickupInServiceZone pickup rest

/-! ## The edges of the closed vertex cycle -/

/-- The pairs `(polygon[i], polygon[j])` that the loop visits after the first
one, when it walks `rest` with `prev` as the vertex before its head. -/
def edgesFrom : Coordinates → List Coordinates → List (Coordinates × Coordinates)
  | _, [] => []
  | prev, cur :: rest => (cur, prev) :: edgesFrom cur rest

/-- The pairs `(polygon[i], polygon[j])` that the loop of `isPointInPolygon`
visits, in order: the first vertex with the last one, then each vertex with the
one before it. -/
def cycleEdges : List Coordinates → List (Coordinates × Coordinates)
  | [] => []
  | a :: t => (a, (a :: t).getLast (List.cons_ne_nil a t)) :: edgesFrom a t

end Zones

/-!
# The real-time client (`static/js/websocket-client.js`)

The members of a `WebSocketClient` that the reconnect counter and the handler
registry read or write, and the methods and socket listeners that touch them.
A method returns the effects it has on the outside (handler calls, the
`console.error` of `trigger`, timers) next to the new state, and `Except.error`
when it throws; a socket listener that throws gives the state it leaves
together with the error. A handler is a function of the page; what it does
besides returning or throwing is not part of this description.
-/

/-- The `config` members that the methods below read: `reconnectInterval`, a
number of milliseconds, and `maxReconnectAttempts`, a number of attempts (the
default 10 in every construction of this repository). -/
structure WebSocketClient.Config where
  reconnectInterval : ℚ
  maxReconnectAttempts : Int

/-- The members of a `WebSocketClient` that the methods below read or write.
`reconnectAttempts` is only ever set to 0 or incremented, so it is an integer.
`eventHandlers event` is the own property `eventHandlers[event]` of the object
literal `{}` the constructor creates: `none` while it has no such property. -/
structure WebSocketClient where
  config : WebSocketClient.Config
  connected : Bool
  reconnectAttempts : Int
  eventHandlers : String → Option (List Nat)

namespace WebSocketClient

open Zones (JsValue)

/-- A handler function. Two registrations hold the same handler when they hold
the same function (`indexOf` compares with `===`): here, the same number. -/
abbrev Handler := Nat

/-- The defaults of the constructor: `reconnectInterval: 5000`,
`maxReconnectAttempts: 10`. -/
def Config.default : Config :=
  { reconnectInterval := 5000, maxReconnectAttempts := 10 }

/-- The state the constructor leaves (with `autoConnect: false`). -/
def create (config : Config) : WebSocketClient :=
  { config := config
    connected := false
    reconnectAttempts := 0
    eventHandlers := fun _ => none }

/-- What a method does to the outside. -/
inductive Effect where
  /-- The call `handler(data)`. -/
  | called (handler : Handler) (data : JsValue)
  /-- The `console.error` in the `catch` of `trigger`, for `event`. -/
  | consoleError (event : String)
  /-- A timer set with `setTimeout`, to fire after `delay` ms. -/
  | setTimeout (delay : ℚ)

/-- The names of the members of `Object.prototype`, which the object literal
`eventHandlers` inherits. -/
def objectPrototypeMembers : List String :=
  ["constructor", "__defineGetter__", "__defineSetter__", "hasOwnProperty",
   "__lookupGetter__", "__lookupSetter__", "isPrototypeOf", "propertyIsEnumerable",
   "toString", "valueOf", "__proto__", "toLocaleString"]

/-- What the read `this.eventHandlers[event]` yields. -/
inductive Registered where
  /-- No such property: `undefined`. -/
  | absent
  /-- The array stored by `on`. -/
  | handlers (hs : List Handler)
  /-- A member of `Object.prototype`: truthy, and not an array. -/
  | inherited

/-- The read `this.eventHandlers[event]`: the own property when there is one,
else the inherited member when `event` names one, else `undefined`. -/
def lookup (c : WebSocketClient) (event : String) : Registered :=
  match c.eventHandlers event with
  | some hs => .handlers hs
  | none => if event ∈ objectPrototypeMembers then .inherited else .absent

/-- The state after the assignment of the array `hs` to `eventHandlers[event]`
(or its mutation in place). -/
def setHandlers (c : WebSocketClient) (event : String) (hs : List Handler) :
    WebSocketClient :=
  { c with eventHandlers := fun e => if e = event then some hs else c.eventHandlers e }

/-- The method `on(event, handler)`. -/
def onMethod (c : WebSocketClient) (event : String) (handler : Handler) :
    Except String WebSocketClient :=
  match c.lookup event with
  | .absent => .ok (c.setHandlers event ([] ++ [handler]))
  | .handlers hs => .ok (c.setHandlers event (hs ++ [handler]))
  | .inherited => .error "TypeError: this.eventHandlers[event].push is not a function"

/-- The method `off(event, handler)`: `indexOf`, then `splice(index, 1)` when the
index is not -1. -/
def offMethod (c : WebSocketClient) (event : String) (handler : Handler) :
    Except String WebSocketClient :=
  match c.lookup event with
  | .absent => .ok c
  | .handlers hs =>
    match hs.indexOf? handler with
    | some index => .ok (c.setHandlers event (hs.eraseIdx index))
    | none => .ok c
  | .inherited => .error "TypeError: this.eventHandlers[event].indexOf is not a function"

/-- The `forEach` of `trigger`: each handler is called inside `try`, and a throw
is caught and logged. `throws handler data` tells whether `handler(data)` throws. -/
def trigger.forEach (throws : Handler → JsValue → Bool) (event : String) (data : JsValue) :
    List Handler → List Effect
  | [] => []
  | handler :: rest =>
    if throws handler data then
      .called handler data :: .consoleError event :: trigger.forEach throws event data rest
    else .called handler data :: trigger.forEach throws event data rest

/-- The default of the parameter `data = null` of `trigger`: `null` in place of an
omitted, that is `undefined`, argument. -/
def trigger.defaulted : JsValue → JsValue
  | .undefined => .null
  | data => data

/-- The method `trigger(event, data = null)`; an omitted `data` is `undefined`. -/
def trigger (throws : Handler → JsValue → Bool) (c : WebSocketClient) (event : String)
    (data : JsValue) : Except String (List Effect) :=
  match c.lookup event with
  | .absent => .ok []
  | .handlers hs =>
    .ok (trigger.forEach throws event (trigger.defaulted data) hs)
  | .inherited => .error "TypeError: this.eventHandlers[event].forEach is not a function"

/-- The method `scheduleReconnect()`; when it throws, the state is as it was. -/
def scheduleReconnect (throws : Handler → JsValue → Bool) (c : WebSocketClient) :
    Except String (WebSocketClient × List Effect) :=
  if c.reconnectAttempts ≥ c.config.maxReconnectAttempts then
    match trigger throws c "max_reconnect_attempts_reached" .undefined with
    | .error e => .error e
    | .ok effects => .ok (c, effects)
  else
    .ok ({ c with reconnectAttempts := c.reconnectAttempts + 1 },
         [.setTimeout c.config.reconnectInterval])

/-- What a socket listener yields: the state and the effects when it returns,
the state it leaves and the error when it throws. -/
abbrev ListenerResult := Except (WebSocketClient × String) (WebSocketClient × List Effect)

/-- The listener of the socket's 'connect' event. -/
def onConnect (throws : Handler → JsValue → Bool) (c : WebSocketClient) : ListenerResult :=
  match trigger throws { c with connected := true, reconnectAttempts := 0 } "connected"
      .undefined with
  | .error e => .error ({ c with connected := true, reconnectAttempts := 0 }, e)
  | .ok effects => .ok ({ c with connected := true, reconnectAttempts := 0 }, effects)

/-- The test of the `if` in the 'disconnect' listener:
`reason === 'io server disconnect' || reason === 'io client disconnect'`. -/
def onDisconnect.reconnects (reason : String) : Bool :=
  decide (reason = "io server disconnect") || decide (reason = "io client disconnect")

/-- The listener of the socket's 'disconnect' event. -/
def onDisconnect (throws : Handler → JsValue → Bool) (c : WebSocketClient)
    (reason : String) : ListenerResult :=
  match trigger throws { c with connected := false } "disconnected" (.string reason) with
  | .error e => .error ({ c with connected := false }, e)
  | .ok effects =>
    if onDisconnect.reconnects reason then
      match scheduleReconnect throws { c with connected := false } with
      | .error e => .error ({ c with connected := false }, e)
      | .ok (c', effects') => .ok (c', effects ++ effects')
    else .ok ({ c with connected := false }, effects)

/-- The listener of the socket's 'connect_error' event; `error` is the value
that the socket passes. The listener first reads `error.message` for its log
line, which throws a `TypeError` when `error` is `null` or `undefined`. -/
def onConnectError (throws : Handler → JsValue → Bool) (c : WebSocketClient)
    (error : JsValue) : ListenerResult :=
  match error.member "message" with
  | .error e => .error (c, e)
  | .ok _ =>
    match trigger throws c "connection_error" error with
    | .error e => .error (c, e)
    | .ok effects =>
      match scheduleReconnect throws c with
      | .error e => .error (c, e)
      | .ok (c', effects') => .ok (c', effects ++ effects')

/-- An event of the socket that has a listener touching the counter. -/
inductive SocketEvent where
  | connect
  | disconnect (reason : String)
  | connectError (error : JsValue)

/-- The listener that runs on a socket event. -/
def listener (throws : Handler → JsValue → Bool) (c : WebSocketClient) :
    SocketEvent → ListenerResult
  | .connect => onConnect throws c
  | .disconnect reason => onDisconnect throws c reason
  | .connectError error => onConnectError throws c error

/-- The state that a listener leaves, whether it returns or throws. -/
def stateAfter : ListenerResult → WebSocketClient
  | .ok (c, _) => c
  | .error (c, _) => c

/-- The state after the listeners of a sequence of socket events have run, the
first event first. -/
def runEvents (throws : Handler → JsValue → Bool) (c : WebSocketClient) :
    List SocketEvent → WebSocketClient
  | [] => c
  | event :: rest => runEvents throws (stateAfter (listener throws c event)) rest

/-- The handlers called by a list of effects, with their data, in order. -/
def calls : List Effect → List (Handler × JsValue)
  | [] => []
  | .called handler data :: rest => (handler, data) :: calls rest
  | _ :: rest => calls rest

end WebSocketClient

namespace Zones

/-! ## The loop as a walk along the vertex list -/

theorem loop_eq_crossings (point : Coordinates) (polygon : List Coordinates) :
    ∀ (n i : Nat) (j : Fin polygon.length) (inside : Bool), polygon.length - i = n →
      isPointInPolygon.loop point polygon i j inside
        = xor inside (crossings point (polygon.get j) (polygon.drop i)) := by
  intro n
  induction n with
  | zero =>
    intro i j inside hn
    have hi : polygon.length ≤ i := by omega
    rw [isPointInPolygon.loop, dif_neg (by omega), List.drop_of_length_le hi]
    simp [crossings]
  | succ n ih =>
    intro i j inside hn
    have hi : i < polygon.length := by omega
    rw [isPointInPolygon.loop, dif_pos hi, ih (i + 1) ⟨i, hi⟩ _ (by omega),
      List.drop_eq_getElem_cons hi]
    simp only [crossings, List.get_eq_getElem]
    cases inside <;> cases edgeToggles point polygon[i] (polygon.get j) <;> simp

theorem isPointInPolygon_eq_crossings (point : Coordinates) (polygon : List Coordinates)
    (h : 3 ≤ polygon.length) :
    isPointInPolygon point polygon
      = crossings point (polygon.getLast (by intro h0; simp [h0] at h)) polygon := by
  have hlen : ¬ polygon.length < 3 := by omega
  rw [isPointInPolygon, dif_neg hlen, loop_eq_crossings point polygon _ 0 _ false rfl]
  simp [List.getLast_eq_getElem]

/-! ## Invariance under change of starting vertex and of direction -/

theorem bne_swap (a b : Bool) : (a != b) = (b != a) := by
  cases a <;> cases b <;> rfl

/-- Over exact arithmetic the toggle test does not depend on the direction in
which the edge is traversed. -/
theorem edgeToggles_comm (point p q : Coordinates) :
    edgeToggles point p q = edgeToggles point q p := by
  simp only [edgeToggles]
  rw [bne_swap (decide (q.lat > point.lat))]
  cases hg : (decide (p.lat > point.lat) != decide (q.lat > point.lat))
  · rfl
  · have hne : p.lat ≠ q.lat := by
      intro he
      rw [he] at hg
      simp at hg
    have h1 : q.lat - p.lat ≠ 0 := sub_ne_zero.mpr (Ne.symm hne)
    have h2 : p.lat - q.lat ≠ 0 := sub_ne_zero.mpr hne
    have hx : (q.lng - p.lng) * (point.lat - p.lat) / (q.lat - p.lat) + p.lng
        = (p.lng - q.lng) * (point.lat - q.lat) / (p.lat - q.lat) + q.lng := by
      field_simp
      ring
    rw [hx]

theorem isPointInPolygon_eq_cycleParity (point : Coordinates) (polygon : List Coordinates) :
    isPointInPolygon point polygon
      = if polygon.length < 3 then false else cycleParity point polygon := by
  by_cases h : polygon.length < 3
  · rw [if_pos h, isPointInPolygon, dif_pos h]
  · rw [if_neg h, isPointInPolygon_eq_crossings point polygon (by omega)]
    cases polygon with
    | nil => simp at h
    | cons a t => simp [cycleParity, crossings]

theorem crossings_append_singleton (point : Coordinates) (q : Coordinates) :
    ∀ (l : List Coordinates) (prev : Coordinates),
      crossings point prev (l ++ [q])
        = xor (crossings point prev l)
            (edgeToggles point q ((prev :: l).getLast (List.cons_ne_nil prev l))) := by
  intro l
  induction l with
  | nil => intro prev; simp [crossings]
  | cons b r ih =>
    intro prev
    rw [List.cons_append, crossings, crossings, ih b, Bool.xor_assoc,
      List.getLast_cons (List.cons_ne_nil b r)]

theorem cycleParity_eq_crossings_append (point a : Coordinates) (t : List Coordinates) :
    cycleParity point (a :: t) = crossings point a (t ++ [a]) := by
  rw [crossings_append_singleton, cycleParity, Bool.xor_comm]

theorem cycleParity_eq_pathParity (point a : Coordinates) (t : List Coordinates) :
    cycleParity point (a :: t) = pathParity point (a :: t ++ [a]) := by
  rw [cycleParity_eq_crossings_append]
  rfl

theorem cycleParity_rotate_one (point a : Coordinates) (t : List Coordinates) :
    cycleParity point (t ++ [a]) = cycleParity point (a :: t) := by
  cases t with
  | nil => rfl
  | cons b r =>
    have hl : (b :: (r ++ [a])).getLast (List.cons_ne_nil _ _) = a := by
      simp
    have hr : (a :: b :: r).getLast (List.cons_ne_nil _ _)
        = (b :: r).getLast (List.cons_ne_nil _ _) :=
      List.getLast_cons (List.cons_ne_nil b r)
    rw [List.cons_append, cycleParity_eq_crossings_append, cycleParity_eq_crossings_append,
      crossings_append_singleton point b (r ++ [a]) b,
      crossings_append_singleton point a r b,
      crossings_append_singleton point a (b :: r) a, crossings, hl, hr]
    generalize edgeToggles point b a = x
    generalize crossings point b r = y
    generalize edgeToggles point a ((b :: r).getLast (List.cons_ne_nil b r)) = z
    cases x <;> cases y <;> cases z <;> rfl

theorem cycleParity_rotate (point : Coordinates) (polygon : List Coordinates) (n : Nat) :
    cycleParity point (polygon.rotate n) = cycleParity point polygon := by
  induction n with
  | zero => rw [List.rotate_zero]
  | succ n ih =>
    rw [← List.rotate_rotate, ← ih]
    cases h : polygon.rotate n with
    | nil => rfl
    | cons a t =>
      rw [List.rotate_cons_succ, List.rotate_zero]
      exact cycleParity_rotate_one point a t

theorem pathParity_cons_cons (point a b : Coordinates) (r : List Coordinates) :
    pathParity point (a :: b :: r) = xor (edgeToggles point b a) (pathParity point (b :: r)) :=
  rfl

theorem pathParity_append_singleton (point q : Coordinates) :
    ∀ (m : List Coordinates) (hm : m ≠ []),
      pathParity point (m ++ [q])
        = xor (pathParity point m) (edgeToggles point q (m.getLast hm)) := by
  intro m hm
  cases m with
  | nil => exact absurd rfl hm
  | cons a t => exact crossings_append_singleton point q t a

theorem pathParity_reverse (point : Coordinates) :
    ∀ l : List Coordinates, pathParity point l.reverse = pathParity point l := by
  intro l
  induction l with
  | nil => rfl
  | cons a t ih =>
    cases t with
    | nil => rfl
    | cons b r =>
      have hne : (b :: r).reverse ≠ [] := by simp
      rw [List.reverse_cons, pathParity_append_singleton point a _ hne, ih,
        pathParity_cons_cons, List.getLast_reverse, edgeToggles_comm, Bool.xor_comm]
      rfl

theorem cycleParity_reverse (point : Coordinates) (polygon : List Coordinates) :
    cycleParity point polygon.reverse = cycleParity point polygon := by
  cases polygon with
  | nil => rfl
  | cons a t =>
    rw [List.reverse_cons, cycleParity_rotate_one, cycleParity_eq_pathParity,
      cycleParity_eq_pathParity, ← pathParity_reverse point (a :: t ++ [a])]
    simp

/-! ## Rectangles -/

theorem convertZone_rectangleBackendZone (id : ℚ) (name : String) (active : Bool)
    (a b c d : ℚ) :
    convertZone (rectangleBackendZone id name active a b c d)
      = rectangleZone id name active a b c d := rfl

theorem rectangle_eval (a b c d : ℚ) (point : Coordinates) (hac : a < c) :
    isPointInPolygon point (rectangle a b c d)
      = xor (decide (a ≤ point.lat ∧ point.lat < c) && decide (point.lng < b))
            (decide (a ≤ point.lat ∧ point.lat < c) && decide (point.lng < d)) := by
  rw [isPointInPolygon_eq_crossings _ _ (by simp [rectangle])]
  simp only [rectangle, List.getLast_cons_cons, List.getLast_singleton, crossings, edgeToggles]
  rcases lt_or_le point.lat a with h1 | h1
  · have h2 : point.lat < c := lt_trans h1 hac
    simp [h1, h2, not_le.mpr h1]
  · rcases lt_or_le point.lat c with h2 | h2
    · simp [h1, h2, not_lt.mpr h1]
    · simp [h1, not_lt.mpr h2, not_lt.mpr h1]

theorem rectangle_inside (a b c d lat lng : ℚ) (hac : a < c)
    (h : a < lat ∧ lat < c ∧ b < lng ∧ lng < d) :
    isPointInPolygon ⟨lat, lng⟩ (rectangle a b c d) = true := by
  rw [rectangle_eval a b c d ⟨lat, lng⟩ hac]
  obtain ⟨h1, h2, h3, h4⟩ := h
  simp [le_of_lt h1, h2, not_lt.mpr (le_of_lt h3), h4]

theorem rectangle_outside (a b c d lat lng : ℚ) (hac : a < c) (hbd : b < d)
    (h : lat < a ∨ c < lat ∨ lng < b ∨ d < lng) :
    isPointInPolygon ⟨lat, lng⟩ (rectangle a b c d) = false := by
  rw [rectangle_eval a b c d ⟨lat, lng⟩ hac]
  rcases h with h | h | h | h
  · simp [not_le.mpr h]
  · simp [not_lt.mpr (le_of_lt h)]
  · simp [h, lt_trans h hbd]
  · simp [not_lt.mpr (le_of_lt h), not_lt.mpr (le_of_lt (lt_trans hbd h))]

/-! ## The cache logic, case by case -/

theorem around_fresh {Z : Type} (s : CacheState Z) (now : Int) (attempt : Except String (List Z))
    (cached : List Z) (hc : s.zonesCache = some cached)
    (ht : now - s.lastZonesFetch < ZONES_CACHE_DURATION) :
    getActiveZones.around s now attempt = { zones := cached, state := s, fetched := false } := by
  simp [getActiveZones.around, hc, ht]

theorem around_ok {Z : Type} (s : CacheState Z) (now : Int) (activeZones : List Z)
    (h : s.zonesCache = none ∨ ZONES_CACHE_DURATION ≤ now - s.lastZonesFetch) :
    getActiveZones.around s now (.ok activeZones)
      = { zones := activeZones
          state := { zonesCache := some activeZones, lastZonesFetch := now }
          fetched := true } := by
  unfold getActiveZones.around
  split
  · next cached hc ht =>
    rcases h with h | h
    · simp [h] at hc
    · have := of_decide_eq_true ht
      omega
  · rfl

theorem around_error {Z : Type} (s : CacheState Z) (now : Int) (e : String)
    (h : s.zonesCache = none ∨ ZONES_CACHE_DURATION ≤ now - s.lastZonesFetch) :
    getActiveZones.around s now (.error e)
      = { zones := s.zonesCache.getD [], state := s, fetched := true } := by
  unfold getActiveZones.around
  split
  · next cached hc ht =>
    rcases h with h | h
    · simp [h] at hc
    · have := of_decide_eq_true ht
      omega
  · cases hs : s.zonesCache <;> simp

theorem around_fetched_iff {Z : Type} (s : CacheState Z) (now : Int)
    (attempt : Except String (List Z)) :
    (getActiveZones.around s now attempt).fetched = true
      ↔ (s.zonesCache = none ∨ ZONES_CACHE_DURATION ≤ now - s.lastZonesFetch) := by
  by_cases h : s.zonesCache = none ∨ ZONES_CACHE_DURATION ≤ now - s.lastZonesFetch
  · cases attempt with
    | ok zs => simp [around_ok s now zs h, h]
    | error e => simp [around_error s now e h, h]
  · have h1 : s.zonesCache ≠ none := fun hn => h (Or.inl hn)
    have h2 : now - s.lastZonesFetch < ZONES_CACHE_DURATION := by
      by_contra hlt
      exact h (Or.inr (by omega))
    obtain ⟨cached, hc⟩ := Option.ne_none_iff_exists'.mp h1
    simp [around_fresh s now attempt cached hc h2, h]

theorem around_of_error {Z : Type} (s : CacheState Z) (now : Int) (e : String) :
    (getActiveZones.around s now (.error e)).zones = s.zonesCache.getD []
      ∧ (getActiveZones.around s now (.error e)).state = s := by
  by_cases h : s.zonesCache = none ∨ ZONES_CACHE_DURATION ≤ now - s.lastZonesFetch
  · rw [around_error s now e h]
    exact ⟨rfl, rfl⟩
  · have h1 : s.zonesCache ≠ none := fun hn => h (Or.inl hn)
    have h2 : now - s.lastZonesFetch < ZONES_CACHE_DURATION := by
      by_contra hlt
      exact h (Or.inr (by omega))
    obtain ⟨cached, hc⟩ := Option.ne_none_iff_exists'.mp h1
    rw [around_fresh s now _ cached hc h2, hc]
    exact ⟨rfl, rfl⟩

/-- A refresh of a `success` body yields the converted zones that are active. -/
theorem refresh_success (b : BackendZoneResponse) (hs : b.status = "success") :
    getActiveZones.refresh (.body b)
      = .ok ((b.data.zones.map convertZone).filter fun zone => zone.active) := by
  simp [getActiveZones.refresh, hs]

theorem getActiveZones_success (s : CacheState Zone) (now : Int) (b : BackendZoneResponse)
    (hf : (getActiveZones s now (.body b)).fetched = true) (hs : b.status = "success") :
    getActiveZones s now (.body b)
      = { zones := (b.data.zones.map convertZone).filter fun zone => zone.active
          state :=
            { zonesCache := some ((b.data.zones.map convertZone).filter fun zone => zone.active)
              lastZonesFetch := now }
          fetched := true } := by
  have hstale := (around_fetched_iff s now _).mp hf
  rw [getActiveZones, refresh_success b hs, around_ok s now _ hstale]

/-! ## The coverage scan and its two messages -/

theorem zoneMatches_iff (pickup : Coordinates) (zone : Zone) :
    zoneMatches pickup zone = true
      ↔ zone.active = true ∧ isPointInPolygon pickup zone.polygon = true := by
  constructor
  · intro h
    simp only [zoneMatches, Bool.and_eq_true] at h
    exact ⟨h.1.1, h.2⟩
  · rintro ⟨ha, hp⟩
    have hlen : 0 < zone.polygon.length := by
      by_contra hl
      have h3 : zone.polygon.length < 3 := by omega
      rw [isPointInPolygon, dif_pos h3] at hp
      exact Bool.noConfusion hp
    simp [zoneMatches, ha, hp, hlen]

theorem not_zoneMatches (pickup : Coordinates) (zone : Zone)
    (h : ¬ (zone.active = true ∧ isPointInPolygon pickup zone.polygon = true)) :
    zoneMatches pickup zone = false := by
  cases hm : zoneMatches pickup zone
  · rfl
  · exact absurd ((zoneMatches_iff pickup zone).mp hm) h

theorem scan_append_match (pickup : Coordinates) (pre : List Zone) (z : Zone) (post : List Zone)
    (hpre : ∀ y ∈ pre, zoneMatches pickup y = false) (hz : zoneMatches pickup z = true) :
    checkZoneCoverage.scan pickup (pre ++ z :: post)
      = { inServiceZone := true, zone := some z, message := none } := by
  induction pre with
  | nil =>
    have hz' := hz
    simp only [zoneMatches] at hz'
    simp [checkZoneCoverage.scan, hz']
  | cons y pre ih =>
    have hy := hpre y (List.mem_cons_self y pre)
    simp only [zoneMatches] at hy
    simp only [List.cons_append, checkZoneCoverage.scan, hy]
    exact ih fun w hw => hpre w (List.mem_cons_of_mem y hw)

theorem scan_no_match (pickup : Coordinates) (zones : List Zone)
    (h : ∀ y ∈ zones, zoneMatches pickup y = false) :
    checkZoneCoverage.scan pickup zones
      = { inServiceZone := false
          zone := none
          message := some "We are currently not operating in this area." } := by
  induction zones with
  | nil => rfl
  | cons y zones ih =>
    have hy := h y (List.mem_cons_self y zones)
    simp only [zoneMatches] at hy
    simp only [checkZoneCoverage.scan, hy]
    exact ih fun w hw => h w (List.mem_cons_of_mem y hw)

theorem exists_first_match (pickup : Coordinates) (zones : List Zone)
    (h : ∃ z ∈ zones, zoneMatches pickup z = true) :
    ∃ pre z post, zones = pre ++ z :: post ∧ (∀ y ∈ pre, zoneMatches pickup y = false)
      ∧ zoneMatches pickup z = true := by
  induction zones with
  | nil =>
    obtain ⟨z, hz, _⟩ := h
    exact absurd hz (List.not_mem_nil z)
  | cons y zones ih =>
    by_cases hy : zoneMatches pickup y = true
    · exact ⟨[], y, zones, rfl, fun w hw => absurd hw (List.not_mem_nil w), hy⟩
    · obtain ⟨z, hz, hm⟩ := h
      have hz' : z ∈ zones := by
        rcases List.mem_cons.mp hz with rfl | hz'
        · exact absurd hm hy
        · exact hz'
      obtain ⟨pre, w, post, hsplit, hpre, hw⟩ := ih ⟨z, hz', hm⟩
      refine ⟨y :: pre, w, post, by simp [hsplit], ?_, hw⟩
      intro v hv
      rcases List.mem_cons.mp hv with rfl | hv'
      · simpa using hy
      · exact hpre v hv'

theorem scan_message_ne_unable (pickup : Coordinates) (zones : List Zone) :
    (checkZoneCoverage.scan pickup zones).message
      ≠ some "Unable to check service zones. Please try again." := by
  induction zones with
  | nil => simp [checkZoneCoverage.scan]
  | cons y zones ih =>
    rw [checkZoneCoverage.scan]
    split
    · simp
    · exact ih

theorem result_nil (pickup : Coordinates) :
    checkZoneCoverage.result pickup []
      = { inServiceZone := false
          zone := none
          message := some "Unable to check service zones. Please try again." } := rfl

theorem result_of_ne_nil (pickup : Coordinates) (zones : List Zone) (h : zones ≠ []) :
    checkZoneCoverage.result pickup zones = checkZoneCoverage.scan pickup zones := by
  have hlen : ¬ zones.length = 0 := fun h0 => h (List.length_eq_zero.mp h0)
  rw [checkZoneCoverage.result, if_neg hlen]

/-! ## When the refresh throws at run time -/

theorem arrayMap_error_of_mem {β : Type} (f : JsValue → Except String β) :
    ∀ (items : List JsValue) (x : JsValue), x ∈ items → (∀ y, f x ≠ .ok y) →
      ∀ ys, arrayMap f items ≠ .ok ys := by
  intro items
  induction items with
  | nil => intro x hx; exact absurd hx (List.not_mem_nil x)
  | cons a rest ih =>
    intro x hx hfail ys
    rw [arrayMap]
    cases hfa : f a with
    | error e => simp
    | ok y =>
      have hx' : x ∈ rest := by
        rcases List.mem_cons.mp hx with rfl | h
        · exact absurd hfa (hfail y)
        · exact h
      cases hrest : arrayMap f rest with
      | error e => simp
      | ok ys' => exact absurd hrest (ih x hx' hfail ys')

theorem arrayMap_ok_of_forall {β : Type} (f : JsValue → Except String β) :
    ∀ items : List JsValue, (∀ x ∈ items, ∃ y, f x = .ok y) →
      ∃ ys, arrayMap f items = .ok ys := by
  intro items
  induction items with
  | nil => intro _; exact ⟨[], rfl⟩
  | cons a rest ih =>
    intro h
    obtain ⟨y, hy⟩ := h a (List.mem_cons_self a rest)
    obtain ⟨ys, hys⟩ := ih fun x hx => h x (List.mem_cons_of_mem a hx)
    exact ⟨y :: ys, by rw [arrayMap, hy, hys]⟩

theorem isNotSuccess_of_ne (v : JsValue) (h : v ≠ .string "success") :
    v.isNotSuccess = true := by
  cases v with
  | string s =>
    have : s ≠ "success" := fun hs => h (by rw [hs])
    simp [JsValue.isNotSuccess, this]
  | _ => rfl

theorem refreshRuntime_body_error (backendResponse : JsValue) (h : bodyFails backendResponse) :
    ∃ e, getActiveZones.refreshRuntime (.body backendResponse) = .error e := by
  simp only [getActiveZones.refreshRuntime]
  cases hst : backendResponse.member "status" with
  | error e => exact ⟨e, rfl⟩
  | ok status =>
    by_cases hs : status = .string "success"
    · subst hs
      cases hd : backendResponse.member "data" with
      | error e => exact ⟨e, by simp [JsValue.isNotSuccess, bind, Except.bind, pure, Except.pure]⟩
      | ok data =>
        cases hz : data.member "zones" with
        | error e =>
          exact ⟨e, by simp [JsValue.isNotSuccess, bind, Except.bind, pure, Except.pure, hz]⟩
        | ok zones =>
          cases hm : zones.map convertZoneRuntime with
          | error e =>
            exact ⟨e, by simp [JsValue.isNotSuccess, bind, Except.bind, pure, Except.pure, hz, hm]⟩
          | ok allZones =>
            exfalso
            rcases h with h | h | h
            · exact h hst
            · cases zones with
              | array items => exact h items (by simp [hd, hz, bind, Except.bind])
              | _ => simp [JsValue.map] at hm
            · obtain ⟨items, hitems, entry, hmem, hfail⟩ := h
              have hzi : zones = .array items := by
                simp [hd, hz, bind, Except.bind] at hitems
                exact hitems
              subst hzi
              exact arrayMap_error_of_mem convertZoneRuntime items entry hmem hfail allZones hm
    · exact ⟨"Backend error", by
        simp [isNotSuccess_of_ne status hs, bind, Except.bind, throw, throwThe,
          MonadExceptOf.throw]⟩

theorem refreshRuntime_error_of_refreshFails (outcome : FetchOutcome JsValue)
    (h : refreshFails outcome) : ∃ e, getActiveZones.refreshRuntime outcome = .error e := by
  cases outcome with
  | rejected => exact ⟨_, rfl⟩
  | notOk status statusText => exact ⟨_, rfl⟩
  | unparsable => exact ⟨_, rfl⟩
  | body backendResponse => exact refreshRuntime_body_error backendResponse h

/-- The failure classes of `refreshFails` are all there are: a refresh that
throws is in one of them. -/
theorem refreshFails_of_error (outcome : FetchOutcome JsValue) (e : String)
    (h : getActiveZones.refreshRuntime outcome = .error e) : refreshFails outcome := by
  cases outcome with
  | rejected => trivial
  | notOk status statusText => trivial
  | unparsable => trivial
  | body backendResponse =>
    simp only [refreshFails, bodyFails]
    by_contra hcon
    push_neg at hcon
    obtain ⟨hst, ⟨items, hitems⟩, hall⟩ := hcon
    have hall' : ∀ x ∈ items, ∃ y, convertZoneRuntime x = .ok y := hall items hitems
    obtain ⟨ys, hys⟩ := arrayMap_ok_of_forall convertZoneRuntime items hall'
    cases hd : backendResponse.member "data" with
    | error e' => simp [hd, bind, Except.bind] at hitems
    | ok data =>
      cases hz : data.member "zones" with
      | error e' => simp [hd, hz, bind, Except.bind] at hitems
      | ok zones =>
        have hzi : zones = .array items := by
          simp [hd, hz, bind, Except.bind] at hitems
          exact hitems
        subst hzi
        simp [getActiveZones.refreshRuntime, hst, hd, hz, JsValue.isNotSuccess, JsValue.map, hys,
          bind, Except.bind, pure, Except.pure] at h

/-! ## The entries on which `convertZone` throws -/

theorem convertCoordinatesRuntime_throws_iff (v : JsValue) :
    (∀ polygon, convertCoordinatesRuntime v ≠ .ok polygon)
      ↔ ((∀ items, v ≠ .array items)
        ∨ ∃ items, v = .array items ∧ ∃ pair ∈ items, ∀ r, destructurePair pair ≠ .ok r) := by
  cases v with
  | array items =>
    constructor
    · intro h
      right
      refine ⟨items, rfl, ?_⟩
      by_contra hcon
      push_neg at hcon
      have hok : ∃ ys, convertCoordinatesRuntime (.array items) = .ok ys := by
        simp only [convertCoordinatesRuntime, JsValue.map]
        apply arrayMap_ok_of_forall
        intro x hx
        obtain ⟨r, hr⟩ := hcon x hx
        simp only [hr]
        exact ⟨_, rfl⟩
      obtain ⟨ys, hys⟩ := hok
      exact h ys hys
    · intro h polygon
      rcases h with h | ⟨items', hi, pair, hmem, hfail⟩
      · exact absurd rfl (h items)
      · cases hi
        simp only [convertCoordinatesRuntime, JsValue.map]
        refine arrayMap_error_of_mem _ items pair hmem ?_ polygon
        intro y
        cases hd : destructurePair pair with
        | error e => simp
        | ok r => exact absurd hd (hfail r)
  | undefined => simp [convertCoordinatesRuntime, JsValue.map]
  | null => simp [convertCoordinatesRuntime, JsValue.map]
  | bool b => simp [convertCoordinatesRuntime, JsValue.map]
  | number q => simp [convertCoordinatesRuntime, JsValue.map]
  | string s => simp [convertCoordinatesRuntime, JsValue.map]
  | object members => simp [convertCoordinatesRuntime, JsValue.map]

theorem convertZoneRuntime_of_member (entry coordinates : JsValue)
    (hu : entry ≠ .undefined) (hn : entry ≠ .null)
    (hm : entry.member "polygon_coordinates" = .ok coordinates) :
    (∀ zone, convertZoneRuntime entry ≠ .ok zone)
      ↔ ∀ polygon, convertCoordinatesRuntime
          (if coordinates.truthy then coordinates else .array []) ≠ .ok polygon := by
  cases hc : convertCoordinatesRuntime (if coordinates.truthy then coordinates else .array [])
    with
  | error e =>
    cases entry with
    | undefined => exact absurd rfl hu
    | null => exact absurd rfl hn
    | _ =>
      simp only [JsValue.member, Except.ok.injEq] at hm
      simp [convertZoneRuntime, JsValue.member, hm, hc, bind, Except.bind, pure, Except.pure]
  | ok polygon =>
    cases entry with
    | undefined => exact absurd rfl hu
    | null => exact absurd rfl hn
    | _ =>
      simp only [JsValue.member, Except.ok.injEq] at hm
      simp [convertZoneRuntime, JsValue.member, hm, hc, bind, Except.bind, pure, Except.pure]

theorem convertZoneRuntime_throws_iff (entry : JsValue) :
    (∀ zone, convertZoneRuntime entry ≠ .ok zone) ↔ convertZoneThrows entry := by
  by_cases hu : entry = .undefined
  · subst hu
    simp [convertZoneThrows, convertZoneRuntime, JsValue.member, bind, Except.bind]
  by_cases hn : entry = .null
  · subst hn
    simp [convertZoneThrows, convertZoneRuntime, JsValue.member, bind, Except.bind]
  have hm : ∃ coordinates, entry.member "polygon_coordinates" = .ok coordinates := by
    cases entry with
    | undefined => exact absurd rfl hu
    | null => exact absurd rfl hn
    | _ => exact ⟨_, rfl⟩
  obtain ⟨coordinates, hm⟩ := hm
  rw [convertZoneRuntime_of_member entry coordinates hu hn hm, convertZoneThrows]
  simp only [hu, hn, false_or, hm, Except.ok.injEq, exists_eq_left']
  by_cases ht : coordinates.truthy = true
  · simp only [ht, if_true, true_and]
    exact convertCoordinatesRuntime_throws_iff coordinates
  · simp only [ht, Bool.false_eq_true, if_false, false_and, iff_false, not_forall, not_not]
    exact ⟨[], rfl⟩

theorem refreshRuntime_ok_of_not_refreshFails (outcome : FetchOutcome JsValue)
    (h : ¬ refreshFails outcome) : ∃ zones, getActiveZones.refreshRuntime outcome = .ok zones := by
  cases hr : getActiveZones.refreshRuntime outcome with
  | error e => exact absurd (refreshFails_of_error outcome e hr) h
  | ok zones => exact ⟨zones, rfl⟩

/-! ## Agreement of the two descriptions of the refresh -/

theorem arrayMap_pairs (pairs : List (ℚ × ℚ)) :
    arrayMap (fun pair =>
        match destructurePair pair with
        | .error e => .error e
        | .ok (lat, lng) => (.ok { lat := lat, lng := lng } : Except String RuntimeCoordinates))
      (pairs.map fun p => .array [.number p.1, .number p.2])
      = .ok ((convertCoordinates pairs).map Coordinates.toRuntime) := by
  induction pairs with
  | nil => rfl
  | cons p rest ih =>
    rw [List.map_cons, arrayMap, ih]
    rfl

theorem convertZoneRuntime_toJson (z : BackendZone) :
    convertZoneRuntime z.toJson = .ok (convertZone z).toRuntime := by
  cases hp : z.polygon_coordinates with
  | none =>
    simp [convertZoneRuntime, BackendZone.toJson, JsValue.member, List.lookup, hp,
      JsValue.truthy, convertCoordinatesRuntime, JsValue.map, arrayMap, bind, Except.bind, pure,
      Except.pure, convertZone, Zone.toRuntime, convertCoordinates]
  | some pairs =>
    simp [convertZoneRuntime, BackendZone.toJson, JsValue.member, List.lookup, hp,
      JsValue.truthy, convertCoordinatesRuntime, JsValue.map, arrayMap_pairs, bind, Except.bind,
      pure, Except.pure, convertZone, Zone.toRuntime]

theorem arrayMap_toJson (zones : List BackendZone) :
    arrayMap convertZoneRuntime (zones.map BackendZone.toJson)
      = .ok ((zones.map convertZone).map Zone.toRuntime) := by
  induction zones with
  | nil => rfl
  | cons z rest ih =>
    rw [List.map_cons, arrayMap, convertZoneRuntime_toJson, ih]
    rfl

theorem filter_toRuntime (zones : List Zone) :
    (zones.map Zone.toRuntime).filter (fun zone => zone.active.truthy)
      = (zones.filter fun zone => zone.active).map Zone.toRuntime := by
  rw [List.filter_map]
  rfl

/-- On a body of the declared type the run-time refresh does what `refresh`
does: it succeeds with the same zones, or it throws too. -/
theorem refreshRuntime_toJson (outcome : FetchOutcome BackendZoneResponse) :
    match getActiveZones.refresh outcome with
    | .ok activeZones =>
      getActiveZones.refreshRuntime outcome.toJson = .ok (activeZones.map Zone.toRuntime)
    | .error _ => ∃ e, getActiveZones.refreshRuntime outcome.toJson = .error e := by
  cases outcome with
  | rejected => exact ⟨_, rfl⟩
  | notOk status statusText => exact ⟨_, rfl⟩
  | unparsable => exact ⟨_, rfl⟩
  | body b =>
    by_cases hs : b.status = "success"
    · simp [getActiveZones.refresh, hs, FetchOutcome.toJson, getActiveZones.refreshRuntime,
        BackendZoneResponse.toJson, JsValue.member, List.lookup, JsValue.isNotSuccess,
        JsValue.map, arrayMap_toJson, bind, Except.bind, pure, Except.pure]
      rw [← filter_toRuntime, List.map_map]
    · simp [getActiveZones.refresh, hs, FetchOutcome.toJson, getActiveZones.refreshRuntime,
        BackendZoneResponse.toJson, JsValue.member, List.lookup, JsValue.isNotSuccess,
        bind, Except.bind, throw, throwThe, MonadExceptOf.throw]

/-- On a body of the declared type `getActiveZonesRuntime` is `getActiveZones`. -/
theorem getActiveZonesRuntime_toJson (s : CacheState Zone) (now : Int)
    (outcome : FetchOutcome BackendZoneResponse) :
    getActiveZonesRuntime s.toRuntime now outcome.toJson
      = { zones := (getActiveZones s now outcome).zones.map Zone.toRuntime
          state := (getActiveZones s now outcome).state.toRuntime
          fetched := (getActiveZones s now outcome).fetched } := by
  have hb := refreshRuntime_toJson outcome
  rw [getActiveZonesRuntime, getActiveZones]
  by_cases h : s.zonesCache = none ∨ ZONES_CACHE_DURATION ≤ now - s.lastZonesFetch
  · have h' : s.toRuntime.zonesCache = none
        ∨ ZONES_CACHE_DURATION ≤ now - s.toRuntime.lastZonesFetch := by
      rcases h with h | h
      · exact Or.inl (by simp [CacheState.toRuntime, h])
      · exact Or.inr h
    cases hr : getActiveZones.refresh outcome with
    | ok activeZones =>
      rw [hr] at hb
      rw [hb, around_ok _ _ _ h', around_ok _ _ _ h]
      rfl
    | error e =>
      rw [hr] at hb
      obtain ⟨e', he'⟩ := hb
      rw [he', around_error _ _ _ h', around_error _ _ _ h]
      cases hc : s.zonesCache <;> simp [CacheState.toRuntime, hc]
  · have h1 : s.zonesCache ≠ none := fun hn => h (Or.inl hn)
    have h2 : now - s.lastZonesFetch < ZONES_CACHE_DURATION := by
      by_contra hlt
      exact h (Or.inr (by omega))
    obtain ⟨cached, hc⟩ := Option.ne_none_iff_exists'.mp h1
    rw [around_fresh s now _ cached hc h2,
      around_fresh s.toRuntime now _ (cached.map Zone.toRuntime)
        (by simp [CacheState.toRuntime, hc]) h2]

/-! ## What a successful refresh returns and stores -/

theorem filter_map_convertZone (zones : List BackendZone) :
    (zones.map convertZone).filter (fun zone => zone.active)
      = (zones.filter fun z => z.is_active).map convertZone := by
  rw [List.filter_map]
  rfl

theorem getActiveZones_refreshing (s : CacheState Zone) (now : Int) (b : BackendZoneResponse)
    (hstale : s.zonesCache = none ∨ now - s.lastZonesFetch ≥ 300000)
    (hs : b.status = "success") :
    getActiveZones s now (.body b)
      = { zones := (b.data.zones.filter fun z => z.is_active).map convertZone
          state :=
            { zonesCache := some ((b.data.zones.filter fun z => z.is_active).map convertZone)
              lastZonesFetch := now }
          fetched := true } := by
  have hf : (getActiveZones s now (.body b)).fetched = true := by
    rw [getActiveZones, around_fetched_iff]
    exact hstale
  rw [getActiveZones_success s now b hf hs, filter_map_convertZone]

/-! ## Which zones the two scans accept -/

theorem isPickupInServiceZone_eq_any (pickup : Coordinates) (zones : List Zone) :
    isPickupInServiceZone pickup zones = zones.any (zoneMatches pickup) := by
  induction zones with
  | nil => rfl
  | cons z rest ih =>
    rw [isPickupInServiceZone, List.any_cons, ih]
    cases hz : zoneMatches pickup z
    · simp only [zoneMatches] at hz
      simp [hz]
    · simp only [zoneMatches] at hz
      simp [hz]

theorem zoneMatches_iff_three (pickup : Coordinates) (zone : Zone) :
    zoneMatches pickup zone = true
      ↔ zone.active = true ∧ 3 ≤ zone.polygon.length
          ∧ isPointInPolygon pickup zone.polygon = true := by
  rw [zoneMatches_iff]
  constructor
  · rintro ⟨ha, hp⟩
    refine ⟨ha, ?_, hp⟩
    by_contra hl
    have h3 : zone.polygon.length < 3 := by omega
    rw [isPointInPolygon, dif_pos h3] at hp
    exact Bool.noConfusion hp
  · rintro ⟨ha, _, hp⟩
    exact ⟨ha, hp⟩

theorem scan_zone_matches (pickup : Coordinates) (zones : List Zone) (z : Zone)
    (h : (checkZoneCoverage.scan pickup zones).zone = some z) :
    z ∈ zones ∧ zoneMatches pickup z = true := by
  induction zones with
  | nil => simp [checkZoneCoverage.scan] at h
  | cons y rest ih =>
    rw [checkZoneCoverage.scan] at h
    by_cases hy : zoneMatches pickup y = true
    · have hy' := hy
      simp only [zoneMatches] at hy'
      rw [if_pos hy'] at h
      have hzy : y = z := by simpa using h
      subst hzy
      exact ⟨List.mem_cons_self _ _, hy⟩
    · have hy' := hy
      simp only [zoneMatches] at hy'
      rw [if_neg hy'] at h
      obtain ⟨hm, hz⟩ := ih h
      exact ⟨List.mem_cons_of_mem _ hm, hz⟩

theorem result_zone_matches (pickup : Coordinates) (zones : List Zone) (z : Zone)
    (h : (checkZoneCoverage.result pickup zones).zone = some z) :
    z ∈ zones ∧ zoneMatches pickup z = true := by
  rw [checkZoneCoverage.result] at h
  split at h
  · simp at h
  · exact scan_zone_matches pickup zones z h

/-! ## The guard excludes a zero divisor -/

theorem edgeToggles_eq_guard_and (point pi pj : Coordinates) :
    edgeToggles point pi pj
      = (latitudeGuard point.lat pi.lat pj.lat
          && decide (point.lng < (pj.lng - pi.lng) * (point.lat - pi.lat) / (pj.lat - pi.lat)
              + pi.lng)) := rfl

theorem latitudeGuard_iff (lat yi yj : ℚ) :
    latitudeGuard lat yi yj = true ↔ (yj ≤ lat ∧ lat < yi) ∨ (yi ≤ lat ∧ lat < yj) := by
  simp only [latitudeGuard, gt_iff_lt]
  rcases lt_or_le lat yi with h1 | h1 <;> rcases lt_or_le lat yj with h2 | h2
  · simp [h1, h2, not_le.mpr h1, not_le.mpr h2]
  · simp [h1, h2, not_lt.mpr h2]
  · simp [h1, h2, not_lt.mpr h1]
  · simp [h1, h2, not_lt.mpr h1, not_lt.mpr h2]

theorem divisor_ne_zero_of_guard (lat yi yj : ℚ) (h : latitudeGuard lat yi yj = true) :
    yj - yi ≠ 0 := by
  intro h0
  have he : yj = yi := sub_eq_zero.mp h0
  rw [he] at h
  simp [latitudeGuard] at h

theorem edgeToggles_checked (point pi pj : Coordinates) :
    edgeToggles.checked point pi pj = some (edgeToggles point pi pj) := by
  by_cases hg : latitudeGuard point.lat pi.lat pj.lat = true
  · have hne := divisor_ne_zero_of_guard _ _ _ hg
    have hg' := hg
    simp only [latitudeGuard] at hg'
    simp [edgeToggles.checked, edgeToggles, checkedDivide, hg', hne]
  · have hg' := hg
    simp only [latitudeGuard] at hg'
    simp [edgeToggles.checked, edgeToggles, hg']

theorem checkedLoop_eq_loop (point : Coordinates) (polygon : List Coordinates) :
    ∀ (n i : Nat) (j : Fin polygon.length) (inside : Bool), polygon.length - i = n →
      isPointInPolygon.checkedLoop point polygon i j inside
        = some (isPointInPolygon.loop point polygon i j inside) := by
  intro n
  induction n with
  | zero =>
    intro i j inside hn
    have hi : ¬ i < polygon.length := by omega
    rw [isPointInPolygon.checkedLoop, dif_neg hi, isPointInPolygon.loop, dif_neg hi]
  | succ n ih =>
    intro i j inside hn
    have hi : i < polygon.length := by omega
    rw [isPointInPolygon.checkedLoop, dif_pos hi, isPointInPolygon.loop, dif_pos hi,
      edgeToggles_checked]
    exact ih (i + 1) ⟨i, hi⟩ _ (by omega)

/-! ## The code computes the specified containment test -/

theorem interpolation_eq_spec (lat : ℚ) (pi pj : Coordinates) (h : pi.lat ≠ pj.lat) :
    (pj.lng - pi.lng) * (lat - pi.lat) / (pj.lat - pi.lat) + pi.lng
      = specInterpolatedLng lat pi pj := by
  have h1 : pj.lat - pi.lat ≠ 0 := sub_ne_zero.mpr (Ne.symm h)
  have h2 : pi.lat - pj.lat ≠ 0 := sub_ne_zero.mpr h
  rw [specInterpolatedLng]
  field_simp
  ring

theorem edgeToggles_eq_spec (point pi pj : Coordinates) :
    edgeToggles point pi pj = specEdgeToggles point pi pj := by
  simp only [edgeToggles, specEdgeToggles]
  cases hg : (decide (pi.lat > point.lat) != decide (pj.lat > point.lat))
  · rfl
  · have hne : pi.lat ≠ pj.lat := by
      intro he
      rw [he] at hg
      simp at hg
    rw [interpolation_eq_spec point.lat pi pj hne]

theorem specPreviousIndex_zero (n : Nat) (h : 0 < n) : specPreviousIndex n 0 = n - 1 := by
  rw [specPreviousIndex, Nat.zero_add]
  exact Nat.mod_eq_of_lt (by omega)

theorem specPreviousIndex_succ (n k : Nat) (h : k + 1 < n) : specPreviousIndex n (k + 1) = k := by
  rw [specPreviousIndex]
  have : k + 1 + n - 1 = k + n := by omega
  rw [this, Nat.add_mod_right]
  exact Nat.mod_eq_of_lt (by omega)

theorem loop_eq_specInsideAfter (point : Coordinates) (polygon : List Coordinates) :
    ∀ (n i : Nat) (j : Fin polygon.length), polygon.length - i = n → i ≤ polygon.length →
      j.val = specPreviousIndex polygon.length i →
      isPointInPolygon.loop point polygon i j (specInsideAfter point polygon i)
        = specInsideAfter point polygon polygon.length := by
  intro n
  induction n with
  | zero =>
    intro i j hn hi _
    have hi' : i = polygon.length := by omega
    rw [isPointInPolygon.loop, dif_neg (by omega), hi']
  | succ n ih =>
    intro i j hn _ hj
    have hi : i < polygon.length := by omega
    have hstep : (if edgeToggles point (polygon.get ⟨i, hi⟩) (polygon.get j) = true
          then !specInsideAfter point polygon i else specInsideAfter point polygon i)
        = specInsideAfter point polygon (i + 1) := by
      have hgi : polygon[i]? = some (polygon.get ⟨i, hi⟩) := by simp [hi]
      have hgj : polygon[specPreviousIndex polygon.length i]? = some (polygon.get j) := by
        rw [← hj]
        simp
      rw [specInsideAfter, hgi, hgj, edgeToggles_eq_spec]
    rw [isPointInPolygon.loop, dif_pos hi, hstep]
    by_cases hlast : i + 1 < polygon.length
    · exact ih (i + 1) ⟨i, hi⟩ (by omega) (by omega)
        (by rw [specPreviousIndex_succ _ _ hlast])
    · have hend : i + 1 = polygon.length := by omega
      rw [isPointInPolygon.loop, dif_neg (by omega), hend]

/-! ## Conversion and encoding of coordinates -/

theorem polygoncomplete_loop_eq (path : List Coordinates) :
    ∀ (n i : Nat) (acc : List (ℚ × ℚ)), path.length - i = n →
      polygoncomplete.loop path i acc = acc ++ (path.drop i).map fun p => (p.lat, p.lng) := by
  intro n
  induction n with
  | zero =>
    intro i acc hn
    have hi : path.length ≤ i := by omega
    rw [polygoncomplete.loop, dif_neg (by omega), List.drop_of_length_le hi]
    simp
  | succ n ih =>
    intro i acc hn
    have hi : i < path.length := by omega
    rw [polygoncomplete.loop, dif_pos hi, ih (i + 1) _ (by omega), List.drop_eq_getElem_cons hi,
      List.map_cons, List.append_assoc]
    rfl

theorem polygonCoordinates_eq_map (path : List Coordinates) :
    polygoncomplete.polygonCoordinates path = path.map fun p => (p.lat, p.lng) := by
  rw [polygoncomplete.polygonCoordinates, polygoncomplete_loop_eq path _ 0 [] rfl]
  simp

theorem convertZoneRuntime_empty_polygon (members : List (String × JsValue))
    (h : members.lookup "polygon_coordinates" = none
      ∨ members.lookup "polygon_coordinates" = some .null
      ∨ members.lookup "polygon_coordinates" = some (.array [])) :
    ∃ zone, convertZoneRuntime (.object members) = .ok zone ∧ zone.polygon = [] := by
  rcases h with h | h | h <;>
    simp [convertZoneRuntime, JsValue.member, h, JsValue.truthy, convertCoordinatesRuntime,
      JsValue.map, arrayMap, bind, Except.bind, pure, Except.pure]

/-! ## Fields that the scans do not read -/

theorem zoneMatches_congr (pickup : Coordinates) (z w : Zone)
    (h : w.active = z.active ∧ w.polygon = z.polygon) :
    zoneMatches pickup w = zoneMatches pickup z := by
  simp only [zoneMatches, h.1, h.2]

theorem isPickupInServiceZone_map (pickup : Coordinates) (f : Zone → Zone)
    (hf : ∀ z, (f z).active = z.active ∧ (f z).polygon = z.polygon) (zones : List Zone) :
    isPickupInServiceZone pickup (zones.map f) = isPickupInServiceZone pickup zones := by
  rw [isPickupInServiceZone_eq_any, isPickupInServiceZone_eq_any, List.any_map]
  congr 1
  funext z
  exact zoneMatches_congr pickup z (f z) (hf z)

theorem scan_map (pickup : Coordinates) (f : Zone → Zone)
    (hf : ∀ z, (f z).active = z.active ∧ (f z).polygon = z.polygon) (zones : List Zone) :
    checkZoneCoverage.scan pickup (zones.map f)
      = { inServiceZone := (checkZoneCoverage.scan pickup zones).inServiceZone
          zone := (checkZoneCoverage.scan pickup zones).zone.map f
          message := (checkZoneCoverage.scan pickup zones).message } := by
  induction zones with
  | nil => rfl
  | cons z rest ih =>
    have hz := zoneMatches_congr pickup z (f z) (hf z)
    simp only [zoneMatches] at hz
    rw [List.map_cons, checkZoneCoverage.scan, checkZoneCoverage.scan, hz]
    split
    · rfl
    · exact ih

theorem result_map (pickup : Coordinates) (f : Zone → Zone)
    (hf : ∀ z, (f z).active = z.active ∧ (f z).polygon = z.polygon) (zones : List Zone) :
    checkZoneCoverage.result pickup (zones.map f)
      = { inServiceZone := (checkZoneCoverage.result pickup zones).inServiceZone
          zone := (checkZoneCoverage.result pickup zones).zone.map f
          message := (checkZoneCoverage.result pickup zones).message } := by
  rw [checkZoneCoverage.result, checkZoneCoverage.result, List.length_map]
  split
  · rfl
  · exact scan_map pickup f hf zones

/-! ## The cache invariant -/

theorem refresh_ok_active (outcome : FetchOutcome BackendZoneResponse) (zs : List Zone)
    (h : getActiveZones.refresh outcome = .ok zs) : ∀ z ∈ zs, z.active = true := by
  cases outcome with
  | rejected => simp [getActiveZones.refresh] at h
  | notOk status statusText => simp [getActiveZones.refresh] at h
  | unparsable => simp [getActiveZones.refresh] at h
  | body b =>
    by_cases hs : b.status = "success"
    · rw [refresh_success b hs] at h
      injection h with h
      intro z hz
      rw [← h] at hz
      simpa using (List.mem_filter.mp hz).2
    · simp [getActiveZones.refresh, hs] at h

theorem around_cases {Z : Type} (s : CacheState Z) (now : Int)
    (attempt : Except String (List Z)) :
    (getActiveZones.around s now attempt).state = s
        ∧ (getActiveZones.around s now attempt).zones = s.zonesCache.getD []
      ∨ ∃ zs, attempt = .ok zs
        ∧ (getActiveZones.around s now attempt).state
            = { zonesCache := some zs, lastZonesFetch := now }
        ∧ (getActiveZones.around s now attempt).zones = zs := by
  by_cases h : s.zonesCache = none ∨ ZONES_CACHE_DURATION ≤ now - s.lastZonesFetch
  · cases attempt with
    | ok zs =>
      right
      exact ⟨zs, rfl, by rw [around_ok s now zs h], by rw [around_ok s now zs h]⟩
    | error e =>
      left
      rw [around_error s now e h]
      exact ⟨rfl, rfl⟩
  · left
    have h1 : s.zonesCache ≠ none := fun hn => h (Or.inl hn)
    have h2 : now - s.lastZonesFetch < ZONES_CACHE_DURATION := by
      by_contra hlt
      exact h (Or.inr (by omega))
    obtain ⟨cached, hc⟩ := Option.ne_none_iff_exists'.mp h1
    rw [around_fresh s now attempt cached hc h2, hc]
    exact ⟨rfl, rfl⟩

theorem cacheInvariant_initial : CacheInvariant CacheState.initial :=
  ⟨fun zones h => by simp [CacheState.initial] at h, fun _ => rfl⟩

theorem cacheInvariant_getActiveZones (s : CacheState Zone) (now : Int)
    (outcome : FetchOutcome BackendZoneResponse) (h : CacheInvariant s) :
    CacheInvariant (getActiveZones s now outcome).state
      ∧ ∀ z ∈ (getActiveZones s now outcome).zones, z.active = true := by
  rw [getActiveZones]
  rcases around_cases s now (getActiveZones.refresh outcome) with ⟨hst, hz⟩ | ⟨zs, hok, hst, hz⟩
  · rw [hst, hz]
    refine ⟨h, ?_⟩
    intro z hzmem
    cases hc : s.zonesCache with
    | none => simp [hc] at hzmem
    | some cached =>
      rw [hc] at hzmem
      exact h.1 cached hc z hzmem
  · rw [hst, hz]
    have hact := refresh_ok_active outcome zs hok
    refine ⟨⟨?_, ?_⟩, hact⟩
    · intro zones hzones
      have : zs = zones := by simpa using hzones
      rw [← this]
      exact hact
    · intro hnone
      simp at hnone

theorem cacheInvariant_clearZonesCache (s : CacheState Zone) :
    CacheInvariant (clearZonesCache s) :=
  ⟨fun zones h => by simp [clearZonesCache] at h, fun _ => rfl⟩

theorem cacheInvariant_runCalls (calls : List CacheCall) :
    ∀ s : CacheState Zone, CacheInvariant s → CacheInvariant (runCalls s calls) := by
  induction calls with
  | nil => intro s h; exact h
  | cons call rest ih =>
    intro s h
    rw [runCalls]
    apply ih
    cases call with
    | getActiveZones now outcome => exact (cacheInvariant_getActiveZones s now outcome h).1
    | clearZonesCache => exact cacheInvariant_clearZonesCache s

/-! ## The members of a coverage result -/

theorem scan_inServiceZone (pickup : Coordinates) (zones : List Zone) :
    (checkZoneCoverage.scan pickup zones).inServiceZone = isPickupInServiceZone pickup zones := by
  induction zones with
  | nil => rfl
  | cons z rest ih =>
    rw [checkZoneCoverage.scan, isPickupInServiceZone]
    split
    · rfl
    · exact ih

theorem scan_members (pickup : Coordinates) (zones : List Zone) :
    ((checkZoneCoverage.scan pickup zones).zone.isSome = true
        ↔ (checkZoneCoverage.scan pickup zones).inServiceZone = true)
    ∧ ((checkZoneCoverage.scan pickup zones).message.isSome = true
        ↔ (checkZoneCoverage.scan pickup zones).inServiceZone = false) := by
  induction zones with
  | nil => simp [checkZoneCoverage.scan]
  | cons z rest ih =>
    rw [checkZoneCoverage.scan]
    split
    · simp
    · exact ih

theorem result_members (pickup : Coordinates) (zones : List Zone) :
    ((checkZoneCoverage.result pickup zones).zone.isSome = true
        ↔ (checkZoneCoverage.result pickup zones).inServiceZone = true)
    ∧ ((checkZoneCoverage.result pickup zones).message.isSome = true
        ↔ (checkZoneCoverage.result pickup zones).inServiceZone = false) := by
  rw [checkZoneCoverage.result]
  split
  · simp
  · exact scan_members pickup zones

/-! ## The two versions of the containment test -/

theorem elementAt_fin (polygon : List Coordinates) (j : Fin polygon.length) :
    Attached.elementAt polygon (j.val : Int) = some (polygon.get j) := by
  have h0 : (0 : Int) ≤ (j.val : Int) := Int.ofNat_nonneg _
  rw [Attached.elementAt, if_pos h0, Int.toNat_ofNat]
  simp

theorem attached_loop_eq (point : Coordinates) (polygon : List Coordinates) :
    ∀ (n i : Nat) (j : Fin polygon.length) (inside : Bool), polygon.length - i = n →
      Attached.isPointInPolygon.loop point polygon i (j.val : Int) inside
        = some (isPointInPolygon.loop point polygon i j inside) := by
  intro n
  induction n with
  | zero =>
    intro i j inside hn
    have hi : ¬ i < polygon.length := by omega
    rw [Attached.isPointInPolygon.loop, dif_neg hi, isPointInPolygon.loop, dif_neg hi]
  | succ n ih =>
    intro i j inside hn
    have hi : i < polygon.length := by omega
    rw [Attached.isPointInPolygon.loop, dif_pos hi, isPointInPolygon.loop, dif_pos hi,
      elementAt_fin]
    exact ih (i + 1) ⟨i, hi⟩ _ (by omega)

theorem edgeToggles_self (point a : Coordinates) : edgeToggles point a a = false := by
  simp [edgeToggles]

theorem loop_short (point : Coordinates) (polygon : List Coordinates)
    (h0 : 0 < polygon.length) (h3 : polygon.length < 3) :
    isPointInPolygon.loop point polygon 0 ⟨polygon.length - 1, by omega⟩ false = false := by
  rw [loop_eq_crossings point polygon _ 0 _ false rfl]
  match polygon, h0, h3 with
  | [a], _, _ => simp [crossings, edgeToggles_self]
  | [a, b], _, _ =>
    simp only [List.drop_zero, List.length_cons, List.length_nil, List.get_eq_getElem,
      crossings]
    simp only [Nat.reduceAdd, Nat.add_one_sub_one, List.getElem_cons_succ,
      List.getElem_cons_zero]
    rw [edgeToggles_comm point a b]
    cases edgeToggles point b a <;> rfl

theorem attached_isPointInPolygon_eq (point : Coordinates) (polygon : List Coordinates) :
    Attached.isPointInPolygon point polygon = some (isPointInPolygon point polygon) := by
  by_cases h0 : 0 < polygon.length
  · have hj : ((polygon.length : Int) - 1)
        = ((⟨polygon.length - 1, by omega⟩ : Fin polygon.length).val : Int) := by
      simp only
      omega
    rw [Attached.isPointInPolygon, hj, attached_loop_eq point polygon _ 0 _ false rfl]
    by_cases h3 : polygon.length < 3
    · rw [loop_short point polygon h0 h3, isPointInPolygon, dif_pos h3]
    · rw [isPointInPolygon, dif_neg h3]
  · have hlen : polygon.length = 0 := by omega
    have h3 : polygon.length < 3 := by omega
    rw [Attached.isPointInPolygon, Attached.isPointInPolygon.loop, dif_neg h0, isPointInPolygon,
      dif_pos h3]

theorem attached_isPickupInServiceZone_eq (pickup : Coordinates) :
    ∀ (zones : List Attached.Zone) (zones' : List Zone),
      List.Forall₂ (fun (z : Attached.Zone) (z' : Zone) =>
        z.active = z'.active ∧ z.polygon = z'.polygon) zones zones' →
      Attached.isPickupInServiceZone pickup zones
        = some (isPickupInServiceZone pickup zones') := by
  intro zones zones' h
  induction h with
  | nil => rfl
  | @cons z z' rest rest' hz _ ih =>
    rw [Attached.isPickupInServiceZone, isPickupInServiceZone, hz.1, hz.2,
      attached_isPointInPolygon_eq]
    cases ha : z'.active
    · simpa using ih
    · cases hp : isPointInPolygon pickup z'.polygon
      · simpa using ih
      · have hlen : 0 < z'.polygon.length := by
          by_contra hl
          have h3 : z'.polygon.length < 3 := by omega
          rw [isPointInPolygon, dif_pos h3] at hp
          exact Bool.noConfusion hp
        simp [hlen]

/-! ## Points outside the bounding box -/

theorem interpolation_between (lat xi yi xj yj : ℚ) (h : latitudeGuard lat yi yj = true) :
    min xi xj ≤ (xj - xi) * (lat - yi) / (yj - yi) + xi
      ∧ (xj - xi) * (lat - yi) / (yj - yi) + xi ≤ max xi xj := by
  have hd := divisor_ne_zero_of_guard lat yi yj h
  have ht : 0 ≤ (lat - yi) / (yj - yi) ∧ (lat - yi) / (yj - yi) ≤ 1 := by
    rcases (latitudeGuard_iff lat yi yj).mp h with ⟨h1, h2⟩ | ⟨h1, h2⟩
    · have hneg : yj - yi < 0 := by linarith
      constructor
      · exact div_nonneg_of_nonpos (by linarith) (le_of_lt hneg)
      · rw [div_le_one_of_neg hneg]
        linarith
    · have hpos : 0 < yj - yi := by linarith
      constructor
      · exact div_nonneg (by linarith) (le_of_lt hpos)
      · rw [div_le_one hpos]
        linarith
  have hx : (xj - xi) * (lat - yi) / (yj - yi) + xi
      = xi + (xj - xi) * ((lat - yi) / (yj - yi)) := by
    rw [mul_div_assoc]
    ring
  rw [hx]
  obtain ⟨t0, t1⟩ := ht
  rcases le_total xi xj with hle | hle
  · rw [min_eq_left hle, max_eq_right hle]
    constructor
    · nlinarith [mul_nonneg (sub_nonneg.mpr hle) t0]
    · nlinarith [mul_nonneg (sub_nonneg.mpr hle) (sub_nonneg.mpr t1)]
  · rw [min_eq_right hle, max_eq_left hle]
    constructor
    · nlinarith [mul_nonneg (sub_nonneg.mpr hle) (sub_nonneg.mpr t1)]
    · nlinarith [mul_nonneg (sub_nonneg.mpr hle) t0]

theorem edgeToggles_lat_below (point a b : Coordinates) (ha : point.lat < a.lat)
    (hb : point.lat < b.lat) : edgeToggles point a b = false := by
  simp [edgeToggles, ha, hb]

theorem edgeToggles_lat_above (point a b : Coordinates) (ha : a.lat < point.lat)
    (hb : b.lat < point.lat) : edgeToggles point a b = false := by
  simp [edgeToggles, not_lt.mpr (le_of_lt ha), not_lt.mpr (le_of_lt hb)]

theorem edgeToggles_lng_above (point a b : Coordinates) (ha : a.lng < point.lng)
    (hb : b.lng < point.lng) : edgeToggles point a b = false := by
  rw [edgeToggles_eq_guard_and]
  cases hg : latitudeGuard point.lat a.lat b.lat
  · rfl
  · have hx := (interpolation_between point.lat a.lng a.lat b.lng b.lat hg).2
    have hmax : max a.lng b.lng < point.lng := max_lt ha hb
    simp [not_lt.mpr (le_of_lt (lt_of_le_of_lt hx hmax))]

theorem edgeToggles_lng_below (point a b : Coordinates) (ha : point.lng < a.lng)
    (hb : point.lng < b.lng) :
    edgeToggles point a b
      = xor (decide (a.lat > point.lat)) (decide (b.lat > point.lat)) := by
  rw [edgeToggles_eq_guard_and]
  cases hg : latitudeGuard point.lat a.lat b.lat
  · simp only [latitudeGuard] at hg
    cases h1 : decide (a.lat > point.lat) <;> cases h2 : decide (b.lat > point.lat) <;>
      simp [h1, h2] at hg ⊢
  · have hx := (interpolation_between point.lat a.lng a.lat b.lng b.lat hg).1
    have hmin : point.lng < min a.lng b.lng := lt_min ha hb
    have hlt := lt_of_lt_of_le hmin hx
    simp only [latitudeGuard] at hg
    cases h1 : decide (a.lat > point.lat) <;> cases h2 : decide (b.lat > point.lat) <;>
      simp [h1, h2, hlt] at hg ⊢

theorem crossings_of_xor (point : Coordinates) (P : Coordinates → Prop)
    (g : Coordinates → Bool)
    (hP : ∀ a b, P a → P b → edgeToggles point a b = xor (g a) (g b)) :
    ∀ (l : List Coordinates) (prev : Coordinates), (∀ v ∈ prev :: l, P v) →
      crossings point prev l
        = xor (g prev) (g ((prev :: l).getLast (List.cons_ne_nil prev l))) := by
  intro l
  induction l with
  | nil => intro prev _; simp [crossings]
  | cons c r ih =>
    intro prev hall
    have hprev : P prev := hall prev (List.mem_cons_self _ _)
    have hc : P c := hall c (List.mem_cons_of_mem _ (List.mem_cons_self _ _))
    rw [crossings, ih c (fun v hv => hall v (List.mem_cons_of_mem _ hv)), hP c prev hc hprev,
      List.getLast_cons (List.cons_ne_nil c r)]
    generalize g ((c :: r).getLast (List.cons_ne_nil c r)) = x
    cases g c <;> cases g prev <;> cases x <;> rfl

theorem cycleParity_of_xor (point : Coordinates) (P : Coordinates → Prop)
    (g : Coordinates → Bool)
    (hP : ∀ a b, P a → P b → edgeToggles point a b = xor (g a) (g b))
    (polygon : List Coordinates) (hall : ∀ v ∈ polygon, P v) :
    cycleParity point polygon = false := by
  cases polygon with
  | nil => rfl
  | cons a t =>
    have hlast : P ((a :: t).getLast (List.cons_ne_nil a t)) :=
      hall _ (List.getLast_mem _)
    rw [cycleParity, crossings_of_xor point P g hP t a hall,
      hP a _ (hall a (List.mem_cons_self _ _)) hlast]
    cases g a <;> cases g ((a :: t).getLast (List.cons_ne_nil a t)) <;> rfl

theorem isPointInPolygon_of_xor (point : Coordinates) (P : Coordinates → Prop)
    (g : Coordinates → Bool)
    (hP : ∀ a b, P a → P b → edgeToggles point a b = xor (g a) (g b))
    (polygon : List Coordinates) (hall : ∀ v ∈ polygon, P v) :
    isPointInPolygon point polygon = false := by
  rw [isPointInPolygon_eq_cycleParity, cycleParity_of_xor point P g hP polygon hall]
  simp

theorem countP_edgesFrom_guard (lat : ℚ) :
    ∀ (l : List Coordinates) (prev : Coordinates),
      (Odd ((edgesFrom prev l).countP fun e => latitudeGuard lat e.1.lat e.2.lat)
        ↔ decide (prev.lat > lat)
            ≠ decide (((prev :: l).getLast (List.cons_ne_nil prev l)).lat > lat)) := by
  intro l
  induction l with
  | nil => intro prev; simp [edgesFrom]
  | cons c r ih =>
    intro prev
    rw [edgesFrom, List.countP_cons, List.getLast_cons (List.cons_ne_nil c r)]
    have ihc := ih c
    generalize ((c :: r).getLast (List.cons_ne_nil c r)).lat = ylast at ihc ⊢
    generalize (edgesFrom c r).countP (fun e => latitudeGuard lat e.1.lat e.2.lat) = n at ihc ⊢
    simp only [latitudeGuard]
    by_cases h1 : c.lat > lat <;> by_cases h2 : prev.lat > lat <;>
      by_cases h3 : ylast > lat <;> simp [h1, h2, h3] at ihc ⊢ <;>
      first | exact ihc | exact Even.add_one ihc | exact Odd.add_one ihc

theorem even_countP_cycleEdges_guard (lat : ℚ) (polygon : List Coordinates) :
    Even ((cycleEdges polygon).countP fun e => latitudeGuard lat e.1.lat e.2.lat) := by
  cases polygon with
  | nil => simp [cycleEdges]
  | cons a t =>
    rw [cycleEdges, List.countP_cons]
    have h := countP_edgesFrom_guard lat t a
    generalize ((a :: t).getLast (List.cons_ne_nil a t)).lat = ylast at h ⊢
    generalize (edgesFrom a t).countP (fun e => latitudeGuard lat e.1.lat e.2.lat) = n at h ⊢
    simp only [latitudeGuard]
    by_cases h1 : a.lat > lat <;> by_cases h3 : ylast > lat <;>
      simp [h1, h3] at h ⊢ <;>
      first | exact h | exact Odd.add_one h

theorem decide_odd_eq_not_even (n : Nat) : decide (Odd n) = !decide (Even n) := by
  by_cases h : Even n
  · simp [h, Nat.not_odd_iff_even]
  · simp [h, Nat.not_even_iff_odd.mp h]

theorem crossings_eq_odd_countP (point : Coordinates) :
    ∀ (l : List Coordinates) (prev : Coordinates),
      crossings point prev l
        = decide (Odd ((edgesFrom prev l).countP fun e => edgeToggles point e.1 e.2)) := by
  intro l
  induction l with
  | nil => intro prev; simp [crossings, edgesFrom]
  | cons c r ih =>
    intro prev
    rw [crossings, edgesFrom, List.countP_cons, ih c]
    cases edgeToggles point c prev <;> simp [Nat.odd_add_one, decide_odd_eq_not_even]

/-- The loop computes the parity of the number of toggling edges of
`cycleEdges`. -/
theorem cycleParity_eq_odd_countP (point : Coordinates) (polygon : List Coordinates) :
    cycleParity point polygon
      = decide (Odd ((cycleEdges polygon).countP fun e => edgeToggles point e.1 e.2)) := by
  cases polygon with
  | nil => simp [cycleParity, cycleEdges]
  | cons a t =>
    rw [cycleParity, cycleEdges, List.countP_cons, crossings_eq_odd_countP]
    cases edgeToggles point a ((a :: t).getLast (List.cons_ne_nil a t)) <;>
      simp [Nat.odd_add_one, decide_odd_eq_not_even]

theorem mem_edgesFrom : ∀ (l : List Coordinates) (prev : Coordinates)
    (e : Coordinates × Coordinates), e ∈ edgesFrom prev l →
      e.1 ∈ prev :: l ∧ e.2 ∈ prev :: l := by
  intro l
  induction l with
  | nil => intro prev e he; simp [edgesFrom] at he
  | cons c r ih =>
    intro prev e he
    rw [edgesFrom, List.mem_cons] at he
    rcases he with rfl | he
    · simp
    · have h := ih c e he
      exact ⟨List.mem_cons_of_mem _ h.1, List.mem_cons_of_mem _ h.2⟩

theorem mem_cycleEdges (polygon : List Coordinates) (e : Coordinates × Coordinates)
    (he : e ∈ cycleEdges polygon) : e.1 ∈ polygon ∧ e.2 ∈ polygon := by
  cases polygon with
  | nil => simp [cycleEdges] at he
  | cons a t =>
    rw [cycleEdges, List.mem_cons] at he
    rcases he with rfl | he
    · exact ⟨List.mem_cons_self _ _, List.getLast_mem _⟩
    · exact mem_edgesFrom t a e he

theorem isPointInPolygon_eq_odd_countP (point : Coordinates) (polygon : List Coordinates)
    (h : 3 ≤ polygon.length) :
    isPointInPolygon point polygon
      = decide (Odd ((cycleEdges polygon).countP fun e => edgeToggles point e.1 e.2)) := by
  rw [isPointInPolygon_eq_cycleParity, if_neg (by omega), cycleParity_eq_odd_countP]

theorem edgeToggles_eq_guard_of_lng_below (point a b : Coordinates)
    (ha : point.lng < a.lng) (hb : point.lng < b.lng) :
    edgeToggles point a b = latitudeGuard point.lat a.lat b.lat := by
  rw [edgeToggles_lng_below point a b ha hb, latitudeGuard]

/-! ## Claims -/

/-- C1: for every point and every non-empty zone list that `getActiveZones`
returns, if some zone of the list is active and its polygon contains the point,
then the list splits as `pre ++ z :: post` where no zone of `pre` is active and
contains the point, `z` is active and contains it, and `checkZoneCoverage`
returns `inServiceZone = true` with `zone = z` (and no message): the first such
zone in list order, whatever matches follow it in `post`. -/
theorem checkZoneCoverage_first_match (s : CacheState Zone) (now : Int)
    (outcome : FetchOutcome BackendZoneResponse) (pickup : Coordinates)
    (hne : (getActiveZones s now outcome).zones ≠ [])
    (hex : ∃ z ∈ (getActiveZones s now outcome).zones,
      z.active = true ∧ isPointInPolygon pickup z.polygon = true) :
    ∃ pre z post, (getActiveZones s now outcome).zones = pre ++ z :: post
      ∧ (∀ y ∈ pre, ¬ (y.active = true ∧ isPointInPolygon pickup y.polygon = true))
      ∧ z.active = true ∧ isPointInPolygon pickup z.polygon = true
      ∧ (checkZoneCoverage s now outcome pickup).1
          = { inServiceZone := true, zone := some z, message := none } := by
  obtain ⟨z0, hz0, hm0⟩ := hex
  obtain ⟨pre, z, post, hsplit, hpre, hz⟩ :=
    exists_first_match pickup _ ⟨z0, hz0, (zoneMatches_iff pickup z0).mpr hm0⟩
  refine ⟨pre, z, post, hsplit, ?_, ((zoneMatches_iff pickup z).mp hz).1,
    ((zoneMatches_iff pickup z).mp hz).2, ?_⟩
  · intro y hy hcon
    have := hpre y hy
    rw [(zoneMatches_iff pickup y).mpr hcon] at this
    exact Bool.noConfusion this
  · have hlen : ¬ (getActiveZones s now outcome).zones.length = 0 := by
      intro h0
      exact hne (List.length_eq_zero.mp h0)
    simp only [checkZoneCoverage, checkZoneCoverage.result, if_neg hlen]
    rw [hsplit]
    exact scan_append_match pickup pre z post hpre hz

/-- Two active squares overlap at (5,5); the snapshot lists "A" before "B", and
`checkZoneCoverage` returns "A". -/
theorem checkZoneCoverage_first_match_witness :
    (checkZoneCoverage
        { zonesCache := some [rectangleZone 1 "A" true 0 0 10 10,
            rectangleZone 2 "B" true 0 0 20 20]
          lastZonesFetch := 0 } 1000 .rejected ⟨5, 5⟩).1
      = { inServiceZone := true
          zone := some (rectangleZone 1 "A" true 0 0 10 10)
          message := none } := by
  have hzones : (getActiveZones
      { zonesCache := some [rectangleZone 1 "A" true 0 0 10 10,
          rectangleZone 2 "B" true 0 0 20 20]
        lastZonesFetch := 0 } 1000 .rejected).zones
      = [rectangleZone 1 "A" true 0 0 10 10, rectangleZone 2 "B" true 0 0 20 20] := by
    simp [getActiveZones, getActiveZones.around, ZONES_CACHE_DURATION]
  obtain ⟨pre, z, post, hsplit, hpre, -, -, hres⟩ :=
    checkZoneCoverage_first_match
      { zonesCache := some [rectangleZone 1 "A" true 0 0 10 10,
          rectangleZone 2 "B" true 0 0 20 20]
        lastZonesFetch := 0 } 1000 .rejected ⟨5, 5⟩
      (by rw [hzones]; exact List.cons_ne_nil _ _)
      ⟨rectangleZone 2 "B" true 0 0 20 20, by rw [hzones]; simp,
        rfl, rectangle_inside 0 0 20 20 5 5 (by norm_num) (by norm_num)⟩
  rw [hzones] at hsplit
  cases pre with
  | nil =>
    injection hsplit with h1 _
    rw [hres, ← h1]
  | cons y rest =>
    injection hsplit with h1 _
    exact absurd ⟨rfl, rectangle_inside 0 0 10 10 5 5 (by norm_num) (by norm_num)⟩
      (h1 ▸ hpre y (List.mem_cons_self y rest))

/-- C2: for every point and every polygon with fewer than 3 vertices,
`isPointInPolygon` returns false. -/
theorem isPointInPolygon_fewer_than_three (point : Coordinates) (polygon : List Coordinates)
    (h : polygon.length < 3) : isPointInPolygon point polygon = false := by
  rw [isPointInPolygon, dif_pos h]

/-- A segment of two vertices contains no point. -/
theorem isPointInPolygon_fewer_than_three_witness :
    isPointInPolygon ⟨5, 5⟩ [⟨0, 0⟩, ⟨10, 10⟩] = false :=
  isPointInPolygon_fewer_than_three ⟨5, 5⟩ [⟨0, 0⟩, ⟨10, 10⟩] (by decide)

/-- C3: over exact arithmetic, for the rectangle `(a,b), (a,d), (c,d), (c,b)`
with `a < c` and `b < d`, `isPointInPolygon` is true at every point with
`a < lat < c` and `b < lng < d`, and false at every point with `lat < a`,
`lat > c`, `lng < b` or `lng > d`. -/
theorem isPointInPolygon_rectangle (a b c d lat lng : ℚ) (hac : a < c) (hbd : b < d) :
    (a < lat ∧ lat < c ∧ b < lng ∧ lng < d →
        isPointInPolygon ⟨lat, lng⟩ [⟨a, b⟩, ⟨a, d⟩, ⟨c, d⟩, ⟨c, b⟩] = true)
    ∧ (lat < a ∨ lat > c ∨ lng < b ∨ lng > d →
        isPointInPolygon ⟨lat, lng⟩ [⟨a, b⟩, ⟨a, d⟩, ⟨c, d⟩, ⟨c, b⟩] = false) :=
  ⟨rectangle_inside a b c d lat lng hac, rectangle_outside a b c d lat lng hac hbd⟩

/-- The square `(0,0), (0,10), (10,10), (10,0)` contains `(5,5)` and does not
contain `(15,15)`. -/
theorem isPointInPolygon_rectangle_witness :
    isPointInPolygon ⟨5, 5⟩ [⟨0, 0⟩, ⟨0, 10⟩, ⟨10, 10⟩, ⟨10, 0⟩] = true
      ∧ isPointInPolygon ⟨15, 15⟩ [⟨0, 0⟩, ⟨0, 10⟩, ⟨10, 10⟩, ⟨10, 0⟩] = false :=
  ⟨(isPointInPolygon_rectangle 0 0 10 10 5 5 (by norm_num) (by norm_num)).1 (by norm_num),
   (isPointInPolygon_rectangle 0 0 10 10 15 15 (by norm_num) (by norm_num)).2 (by norm_num)⟩

/-- C4: over exact arithmetic, for every point and every polygon,
`isPointInPolygon` gives the same result on the vertex list rotated cyclically
by any offset `n` and on the reversed vertex list. -/
theorem isPointInPolygon_rotate_reverse (point : Coordinates) (polygon : List Coordinates) :
    (∀ n : Nat, isPointInPolygon point (polygon.rotate n) = isPointInPolygon point polygon)
      ∧ isPointInPolygon point polygon.reverse = isPointInPolygon point polygon := by
  constructor
  · intro n
    rw [isPointInPolygon_eq_cycleParity, isPointInPolygon_eq_cycleParity, List.length_rotate,
      cycleParity_rotate]
  · rw [isPointInPolygon_eq_cycleParity, isPointInPolygon_eq_cycleParity, List.length_reverse,
      cycleParity_reverse]

/-- C5: `getActiveZones` reaches `fetch` exactly when `zonesCache` is null or
`now - lastZonesFetch ≥ 300000`; with a snapshot younger than that it returns
the snapshot and leaves the state as it was. Hence after a call at `now` whose
fetch succeeded, a second call at `t1` does not fetch when `t1 - now < 300000`
and fetches again when `t1 - now ≥ 300000`. -/
theorem getActiveZones_fetch_iff (s : CacheState Zone) (now : Int)
    (outcome : FetchOutcome BackendZoneResponse) :
    ((getActiveZones s now outcome).fetched = true
        ↔ (s.zonesCache = none ∨ now - s.lastZonesFetch ≥ 300000))
    ∧ (∀ cached, s.zonesCache = some cached → now - s.lastZonesFetch < 300000 →
        (getActiveZones s now outcome).zones = cached
          ∧ (getActiveZones s now outcome).state = s)
    ∧ (∀ activeZones, (getActiveZones s now outcome).fetched = true →
        getActiveZones.refresh outcome = .ok activeZones →
        ∀ (t1 : Int) (o1 : FetchOutcome BackendZoneResponse),
          (t1 - now < 300000 →
            (getActiveZones (getActiveZones s now outcome).state t1 o1).fetched = false)
          ∧ (t1 - now ≥ 300000 →
            (getActiveZones (getActiveZones s now outcome).state t1 o1).fetched = true)) := by
  have hD : ZONES_CACHE_DURATION = 300000 := rfl
  refine ⟨?_, ?_, ?_⟩
  · rw [getActiveZones, around_fetched_iff, hD]
  · intro cached hc ht
    rw [getActiveZones, around_fresh s now _ cached hc (by rw [hD]; exact ht)]
    exact ⟨rfl, rfl⟩
  · intro activeZones hf hok t1 o1
    have hstale := (around_fetched_iff s now _).mp hf
    have hstate : (getActiveZones s now outcome).state
        = { zonesCache := some activeZones, lastZonesFetch := now } := by
      rw [getActiveZones, hok, around_ok s now activeZones hstale]
    rw [hstate]
    constructor
    · intro ht
      rw [getActiveZones, around_fresh _ t1 _ activeZones rfl (by rw [hD]; exact ht)]
    · intro ht
      rw [getActiveZones, around_fetched_iff, hD]
      exact Or.inr ht

/-- From the initial state a call at time 1000 fetches; after its success a
call at 2000 does not fetch and a call at 301000 does. -/
theorem getActiveZones_fetch_iff_witness :
    (getActiveZones CacheState.initial 1000
        (.body { status := "success", message := "", data := { zones := [] } })).fetched = true
    ∧ (getActiveZones (getActiveZones CacheState.initial 1000
        (.body { status := "success", message := "", data := { zones := [] } })).state
        2000 .rejected).fetched = false
    ∧ (getActiveZones (getActiveZones CacheState.initial 1000
        (.body { status := "success", message := "", data := { zones := [] } })).state
        301000 .rejected).fetched = true :=
  have hf : (getActiveZones CacheState.initial 1000
      (.body { status := "success", message := "", data := { zones := [] } })).fetched = true :=
    (getActiveZones_fetch_iff CacheState.initial 1000 _).1.mpr (Or.inl rfl)
  ⟨hf,
    ((getActiveZones_fetch_iff CacheState.initial 1000 _).2.2 [] hf
        (by simp [getActiveZones.refresh])
      2000 .rejected).1 (by decide),
    ((getActiveZones_fetch_iff CacheState.initial 1000 _).2.2 [] hf
        (by simp [getActiveZones.refresh])
      301000 .rejected).2 (by decide)⟩

/-- C6, as stated, fails: the zone entry `{}` is malformed (every member of
`BackendZone` is missing), yet `convertZone` does not throw on it. With the
stale snapshot `[sampleRuntimeZone]` fetched at 0, the call at 400000 returns
the empty list, not the prior snapshot, and replaces both `zonesCache` and
`lastZonesFetch`. -/
theorem getActiveZones_malformed_entry_replaces_cache :
    (getActiveZonesRuntime
        { zonesCache := some [sampleRuntimeZone], lastZonesFetch := 0 } 400000
        (.body (.object [("status", .string "success"),
          ("data", .object [("zones", .array [.object []])])]))).zones = []
    ∧ (getActiveZonesRuntime
        { zonesCache := some [sampleRuntimeZone], lastZonesFetch := 0 } 400000
        (.body (.object [("status", .string "success"),
          ("data", .object [("zones", .array [.object []])])]))).state
        = { zonesCache := some [], lastZonesFetch := 400000 } := by
  have hr : getActiveZones.refreshRuntime (.body (.object [("status", .string "success"),
      ("data", .object [("zones", .array [.object []])])])) = .ok [] := rfl
  rw [getActiveZonesRuntime, hr, around_ok _ _ _ (Or.inr (by decide))]
  exact ⟨rfl, rfl⟩

/-- C6, amended: for every cache state, when the refresh fails in one of
these ways: the fetch rejects, the response is not ok, the body cannot be
parsed, the payload's `status` is not the string 'success', the payload has no
array at `data.zones`, or `convertZone` throws on an entry of that array; then
`getActiveZones` returns a value (whatever the `try` block throws is caught):
the prior `zonesCache` if it is non-null (whatever its age) and the empty list
otherwise; and it leaves `zonesCache` and `lastZonesFetch` as they were.
`convertZone` throws on an entry exactly when the entry is `null` (or
`undefined`), or its `polygon_coordinates` is truthy and not an array, or is an
array with an element that is not iterable. A refresh in none of these classes
does not fail: the call that reaches `fetch` returns the converted active zones
and stores them with `lastZonesFetch = now`. -/
theorem getActiveZones_failed_refresh (s : CacheState RuntimeZone) (now : Int)
    (outcome : FetchOutcome JsValue) :
    (refreshFails outcome →
        (getActiveZonesRuntime s now outcome).zones = s.zonesCache.getD []
          ∧ (getActiveZonesRuntime s now outcome).state = s)
    ∧ (∀ entry : JsValue,
        (∀ zone, convertZoneRuntime entry ≠ .ok zone) ↔ convertZoneThrows entry)
    ∧ (¬ refreshFails outcome →
        ∃ zones, getActiveZones.refreshRuntime outcome = .ok zones
          ∧ ((getActiveZonesRuntime s now outcome).fetched = true →
              (getActiveZonesRuntime s now outcome).zones = zones
                ∧ (getActiveZonesRuntime s now outcome).state
                    = { zonesCache := some zones, lastZonesFetch := now })) := by
  refine ⟨?_, convertZoneRuntime_throws_iff, ?_⟩
  · intro hfail
    obtain ⟨e, he⟩ := refreshRuntime_error_of_refreshFails outcome hfail
    rw [getActiveZonesRuntime, he]
    exact around_of_error s now e
  · intro hok
    obtain ⟨zones, hz⟩ := refreshRuntime_ok_of_not_refreshFails outcome hok
    refine ⟨zones, hz, ?_⟩
    rw [getActiveZonesRuntime, hz]
    intro hf
    rw [around_ok s now zones ((around_fetched_iff s now _).mp hf)]
    exact ⟨rfl, rfl⟩

/-- A `success` body whose `data` has no `zones`, and one whose zone entry is
`{polygon_coordinates: 5}`: the stale snapshot is returned and the state is
kept. -/
theorem getActiveZones_failed_refresh_witness :
    ((getActiveZonesRuntime
        { zonesCache := some [sampleRuntimeZone], lastZonesFetch := 0 } 400000
        (.body (.object [("status", .string "success"), ("data", .object [])]))).zones
        = [sampleRuntimeZone]
    ∧ (getActiveZonesRuntime
        { zonesCache := some [sampleRuntimeZone], lastZonesFetch := 0 } 400000
        (.body (.object [("status", .string "success"), ("data", .object [])]))).state
        = { zonesCache := some [sampleRuntimeZone], lastZonesFetch := 0 })
    ∧ ((getActiveZonesRuntime
        { zonesCache := some [sampleRuntimeZone], lastZonesFetch := 0 } 400000
        (.body (.object [("status", .string "success"),
          ("data", .object [("zones",
            .array [.object [("polygon_coordinates", .number 5)]])])]))).zones
        = [sampleRuntimeZone]
    ∧ (getActiveZonesRuntime
        { zonesCache := some [sampleRuntimeZone], lastZonesFetch := 0 } 400000
        (.body (.object [("status", .string "success"),
          ("data", .object [("zones",
            .array [.object [("polygon_coordinates", .number 5)]])])]))).state
        = { zonesCache := some [sampleRuntimeZone], lastZonesFetch := 0 }) :=
  ⟨(getActiveZones_failed_refresh _ 400000
      (.body (.object [("status", .string "success"), ("data", .object [])]))).1
      (Or.inr (Or.inl (by
        intro items
        simp [JsValue.member, List.lookup, bind, Except.bind]))),
    (getActiveZones_failed_refresh _ 400000
      (.body (.object [("status", .string "success"),
        ("data", .object [("zones",
          .array [.object [("polygon_coordinates", .number 5)]])])]))).1
      (Or.inr (Or.inr ⟨[.object [("polygon_coordinates", .number 5)]], rfl,
        .object [("polygon_coordinates", .number 5)], List.mem_singleton.mpr rfl,
        (convertZoneRuntime_throws_iff _).mpr (Or.inr (Or.inr
          ⟨.number 5, rfl, by simp [JsValue.truthy], Or.inl (fun items h => by cases h)⟩))⟩))⟩

/-- C7: after `clearZonesCache` the state is `zonesCache = null`,
`lastZonesFetch = 0`, whatever it was before, and the next `getActiveZones`
call reaches `fetch` for every clock value and every answer of the network. -/
theorem clearZonesCache_forces_fetch (s : CacheState Zone) :
    clearZonesCache s = { zonesCache := none, lastZonesFetch := 0 }
      ∧ ∀ (now : Int) (outcome : FetchOutcome BackendZoneResponse),
          (getActiveZones (clearZonesCache s) now outcome).fetched = true := by
  refine ⟨rfl, ?_⟩
  intro now outcome
  rw [getActiveZones, around_fetched_iff]
  exact Or.inl rfl

/-- C8: whenever `getActiveZones` yields the empty list, `checkZoneCoverage`
returns `inServiceZone = false`, no zone and exactly the message
'Unable to check service zones. Please try again.', which is not the
'not operating' message; in particular this is the result when there is no
prior cache and the refresh fails. -/
theorem checkZoneCoverage_no_zones (s : CacheState Zone) (now : Int)
    (outcome : FetchOutcome BackendZoneResponse) (pickup : Coordinates) :
    ((getActiveZones s now outcome).zones = [] →
        (checkZoneCoverage s now outcome pickup).1
            = { inServiceZone := false
                zone := none
                message := some "Unable to check service zones. Please try again." }
          ∧ (checkZoneCoverage s now outcome pickup).1.message
            ≠ some "We are currently not operating in this area.")
    ∧ (s.zonesCache = none → (∀ zs, getActiveZones.refresh outcome ≠ .ok zs) →
        (checkZoneCoverage s now outcome pickup).1
          = { inServiceZone := false
              zone := none
              message := some "Unable to check service zones. Please try again." }) := by
  constructor
  · intro h
    simp only [checkZoneCoverage, h, result_nil]
    exact ⟨trivial, by decide⟩
  · intro hc hfail
    have hz : (getActiveZones s now outcome).zones = [] := by
      cases hr : getActiveZones.refresh outcome with
      | ok zs => exact absurd hr (hfail zs)
      | error e => rw [getActiveZones, hr, around_error s now e (Or.inl hc), hc]; rfl
    simp only [checkZoneCoverage, hz, result_nil]

/-- From the initial state a rejected fetch gives the 'Unable to check' message. -/
theorem checkZoneCoverage_no_zones_witness :
    (checkZoneCoverage CacheState.initial 1000 .rejected ⟨5, 5⟩).1
      = { inServiceZone := false
          zone := none
          message := some "Unable to check service zones. Please try again." } :=
  (checkZoneCoverage_no_zones CacheState.initial 1000 .rejected ⟨5, 5⟩).2 rfl
    (by intro zs h; simp [getActiveZones.refresh] at h)

/-- C9: for every point and every non-empty zone list that `getActiveZones`
returns (its zones active or not), if no polygon of the list contains the point
then `checkZoneCoverage`
returns `inServiceZone = false`, no zone and exactly the message
'We are currently not operating in this area.'. -/
theorem checkZoneCoverage_not_operating (s : CacheState Zone) (now : Int)
    (outcome : FetchOutcome BackendZoneResponse) (pickup : Coordinates)
    (hne : (getActiveZones s now outcome).zones ≠ [])
    (hout : ∀ z ∈ (getActiveZones s now outcome).zones,
      isPointInPolygon pickup z.polygon = false) :
    (checkZoneCoverage s now outcome pickup).1
      = { inServiceZone := false
          zone := none
          message := some "We are currently not operating in this area." } := by
  simp only [checkZoneCoverage]
  rw [result_of_ne_nil pickup _ hne]
  apply scan_no_match
  intro y hy
  apply not_zoneMatches
  rintro ⟨_, hp⟩
  rw [hout y hy] at hp
  exact Bool.noConfusion hp

/-- With the square (0,0)-(10,10) as the only cached zone, the point (15,15)
gets the 'not operating' message. -/
theorem checkZoneCoverage_not_operating_witness :
    (checkZoneCoverage
        { zonesCache := some [rectangleZone 1 "A" true 0 0 10 10], lastZonesFetch := 0 }
        1000 .rejected ⟨15, 15⟩).1
      = { inServiceZone := false
          zone := none
          message := some "We are currently not operating in this area." } :=
  checkZoneCoverage_not_operating _ 1000 .rejected ⟨15, 15⟩
    (by simp [getActiveZones, getActiveZones.around, ZONES_CACHE_DURATION])
    (by
      simp only [getActiveZones, getActiveZones.around, ZONES_CACHE_DURATION]
      intro z hz
      have hz' : z = rectangleZone 1 "A" true 0 0 10 10 := by simpa using hz
      rw [hz']
      exact rectangle_outside 0 0 10 10 15 15 (by norm_num) (by norm_num)
        (Or.inr (Or.inl (by norm_num))))

/-- C10, as stated, fails: from the initial state the fetch succeeds (ok
response, status 'success', one well-formed zone, which is inactive), the point
(15,15) is outside that zone, and the result is the 'Unable to check' message,
not the 'not operating' one. -/
theorem checkZoneCoverage_unable_after_successful_fetch :
    (getActiveZones CacheState.initial 1000
        (.body { status := "success", message := "ok",
                 data := { zones := [rectangleBackendZone 1 "A" false 0 0 10 10] } })).fetched
        = true
    ∧ getActiveZones.refresh
        (.body { status := "success", message := "ok",
                 data := { zones := [rectangleBackendZone 1 "A" false 0 0 10 10] } })
        = .ok []
    ∧ isPointInPolygon ⟨15, 15⟩
        (convertZone (rectangleBackendZone 1 "A" false 0 0 10 10)).polygon = false
    ∧ (checkZoneCoverage CacheState.initial 1000
        (.body { status := "success", message := "ok",
                 data := { zones := [rectangleBackendZone 1 "A" false 0 0 10 10] } })
        ⟨15, 15⟩).1
        = { inServiceZone := false
            zone := none
            message := some "Unable to check service zones. Please try again." } := by
  have hr : getActiveZones.refresh
      (.body { status := "success", message := "ok",
               data := { zones := [rectangleBackendZone 1 "A" false 0 0 10 10] } })
      = .ok [] := by
    simp [getActiveZones.refresh, convertZone, rectangleBackendZone]
  refine ⟨?_, hr, ?_, ?_⟩
  · rw [getActiveZones, around_fetched_iff]
    exact Or.inl rfl
  · rw [convertZone_rectangleBackendZone]
    exact rectangle_outside 0 0 10 10 15 15 (by norm_num) (by norm_num)
      (Or.inr (Or.inl (by norm_num)))
  · simp only [checkZoneCoverage, getActiveZones, hr]
    rw [around_ok _ _ _ (Or.inl rfl)]
    rfl

/-- C10, amended: when the fetch performed by `checkZoneCoverage` succeeds
(ok response, status 'success') and at least one fetched zone is active, the
result is not the 'Unable to check' message, and a point outside every active
fetched zone gets the 'not operating' message; when the fetch succeeds and no
fetched zone is active, the result is the 'Unable to check' message. -/
theorem checkZoneCoverage_successful_fetch (s : CacheState Zone) (now : Int)
    (b : BackendZoneResponse) (pickup : Coordinates)
    (hf : (getActiveZones s now (.body b)).fetched = true) (hs : b.status = "success") :
    ((∃ z ∈ b.data.zones, z.is_active = true) →
        (checkZoneCoverage s now (.body b) pickup).1.message
            ≠ some "Unable to check service zones. Please try again."
          ∧ ((∀ z ∈ b.data.zones, z.is_active = true →
                isPointInPolygon pickup (convertZone z).polygon = false) →
              (checkZoneCoverage s now (.body b) pickup).1
                = { inServiceZone := false
                    zone := none
                    message := some "We are currently not operating in this area." }))
    ∧ ((∀ z ∈ b.data.zones, z.is_active = false) →
        (checkZoneCoverage s now (.body b) pickup).1
          = { inServiceZone := false
              zone := none
              message := some "Unable to check service zones. Please try again." }) := by
  simp only [checkZoneCoverage, getActiveZones_success s now b hf hs]
  constructor
  · rintro ⟨z, hz, ha⟩
    have hne : ((b.data.zones.map convertZone).filter fun zone => zone.active) ≠ [] := by
      intro hnil
      have hmem : convertZone z ∈ (b.data.zones.map convertZone).filter fun zone => zone.active :=
        List.mem_filter.mpr ⟨List.mem_map_of_mem convertZone hz, ha⟩
      rw [hnil] at hmem
      exact absurd hmem (List.not_mem_nil _)
    rw [result_of_ne_nil pickup _ hne]
    refine ⟨scan_message_ne_unable pickup _, ?_⟩
    intro hout
    apply scan_no_match
    intro y hy
    apply not_zoneMatches
    rintro ⟨_, hp⟩
    obtain ⟨hy1, hy2⟩ := List.mem_filter.mp hy
    obtain ⟨w, hw, rfl⟩ := List.mem_map.mp hy1
    rw [hout w hw hy2] at hp
    exact Bool.noConfusion hp
  · intro hall
    have hnil : ((b.data.zones.map convertZone).filter fun zone => zone.active) = [] := by
      apply List.filter_eq_nil_iff.mpr
      intro y hy
      obtain ⟨w, hw, rfl⟩ := List.mem_map.mp hy
      have : (convertZone w).active = false := hall w hw
      simp [this]
    rw [hnil, result_nil]

/-- A successful fetch of one active square, and a point outside it: the
'not operating' message. -/
theorem checkZoneCoverage_successful_fetch_witness :
    (checkZoneCoverage CacheState.initial 1000
        (.body { status := "success", message := "ok",
                 data := { zones := [rectangleBackendZone 1 "A" true 0 0 10 10] } })
        ⟨15, 15⟩).1
      = { inServiceZone := false
          zone := none
          message := some "We are currently not operating in this area." } :=
  ((checkZoneCoverage_successful_fetch CacheState.initial 1000
      { status := "success", message := "ok",
        data := { zones := [rectangleBackendZone 1 "A" true 0 0 10 10] } } ⟨15, 15⟩
      (by rw [getActiveZones, around_fetched_iff]; exact Or.inl rfl) rfl).1
    ⟨rectangleBackendZone 1 "A" true 0 0 10 10, by simp, rfl⟩).2
    (by
      intro z hz _
      have hz' : z = rectangleBackendZone 1 "A" true 0 0 10 10 := by simpa using hz
      rw [hz', convertZone_rectangleBackendZone]
      exact rectangle_outside 0 0 10 10 15 15 (by norm_num) (by norm_num)
        (Or.inr (Or.inl (by norm_num))))

/-- C11, as stated, fails: from the initial state a successful refresh of a
response that lists the active "A", the inactive "B" and the active "C" stores
the snapshot `["A", "C"]`; the inactive zone is in the response and not in
`zonesCache`. -/
theorem getActiveZones_snapshot_drops_inactive :
    (getActiveZones CacheState.initial 1000 (.body sampleResponse)).fetched = true
    ∧ (getActiveZones CacheState.initial 1000 (.body sampleResponse)).state
        = { zonesCache := some [rectangleZone 1 "A" true 0 0 10 10,
              rectangleZone 3 "C" true 5 5 15 15]
            lastZonesFetch := 1000 }
    ∧ rectangleBackendZone 2 "B" false 20 20 30 30 ∈ sampleResponse.data.zones
    ∧ convertZone (rectangleBackendZone 2 "B" false 20 20 30 30)
        ∉ [rectangleZone 1 "A" true 0 0 10 10, rectangleZone 3 "C" true 5 5 15 15] := by
  rw [getActiveZones_refreshing CacheState.initial 1000 sampleResponse (Or.inl rfl) rfl]
  refine ⟨rfl, ?_, ?_, ?_⟩
  · simp [sampleResponse, rectangleBackendZone, convertZone, rectangleZone, convertCoordinates,
      rectangle]
  · simp [sampleResponse]
  · simp [rectangleBackendZone, convertZone, rectangleZone]

/-- C11, amended: after every successful refresh in `getActiveZones`, the
stored snapshot (`zonesCache`) is the list that the call returns: a zone of the
backend response is in the snapshot exactly when it is active, and every zone
of the snapshot has `active = true`; inactive zones are in neither. -/
theorem getActiveZones_snapshot_is_active_subset (s : CacheState Zone) (now : Int)
    (b : BackendZoneResponse)
    (hstale : s.zonesCache = none ∨ now - s.lastZonesFetch ≥ 300000)
    (hs : b.status = "success") :
    (getActiveZones s now (.body b)).state.zonesCache
        = some (getActiveZones s now (.body b)).zones
    ∧ (∀ z ∈ b.data.zones,
        (convertZone z ∈ (getActiveZones s now (.body b)).zones ↔ z.is_active = true))
    ∧ (∀ zone ∈ (getActiveZones s now (.body b)).zones, zone.active = true) := by
  rw [getActiveZones_refreshing s now b hstale hs]
  refine ⟨rfl, ?_, ?_⟩
  · intro z hz
    constructor
    · intro hmem
      obtain ⟨w, hw, hwz⟩ := List.mem_map.mp hmem
      have hwa : w.is_active = true := by simpa using (List.mem_filter.mp hw).2
      have : (convertZone w).active = (convertZone z).active := by rw [hwz]
      simpa [convertZone, hwa] using this.symm
    · intro ha
      exact List.mem_map.mpr ⟨z, List.mem_filter.mpr ⟨hz, by simpa using ha⟩, rfl⟩
  · intro zone hzone
    obtain ⟨w, hw, rfl⟩ := List.mem_map.mp hzone
    simpa [convertZone] using (List.mem_filter.mp hw).2

/-- The stale snapshot `["old"]` is replaced by the list that the call returns. -/
theorem getActiveZones_snapshot_is_active_subset_witness :
    (getActiveZones sampleState 400000 (.body sampleResponse)).state.zonesCache
      = some (getActiveZones sampleState 400000 (.body sampleResponse)).zones :=
  (getActiveZones_snapshot_is_active_subset sampleState 400000 sampleResponse
    (Or.inr (by decide)) rfl).1

/-- C12: for every response that is ok with status 'success', a call that
refreshes (no snapshot, or one at least 300000 ms old) returns exactly
`convertZone z` for the backend zones `z` with `is_active` true, in the
backend's order; `zonesCache` becomes that list, whatever the previous snapshot
was, and `lastZonesFetch` becomes the time `now` read at the start of the call. -/
theorem getActiveZones_refresh_result (s : CacheState Zone) (now : Int)
    (b : BackendZoneResponse)
    (hstale : s.zonesCache = none ∨ now - s.lastZonesFetch ≥ 300000)
    (hs : b.status = "success") :
    (getActiveZones s now (.body b)).zones
        = (b.data.zones.filter fun z => z.is_active).map convertZone
    ∧ (getActiveZones s now (.body b)).state.zonesCache
        = some ((b.data.zones.filter fun z => z.is_active).map convertZone)
    ∧ (getActiveZones s now (.body b)).state.lastZonesFetch = now
    ∧ (getActiveZones s now (.body b)).fetched = true := by
  rw [getActiveZones_refreshing s now b hstale hs]
  exact ⟨rfl, rfl, rfl, rfl⟩

/-- With the stale snapshot `["old"]`, the response listing the active "A", the
inactive "B" and the active "C" gives `["A", "C"]`, cached at time 400000. -/
theorem getActiveZones_refresh_result_witness :
    (getActiveZones sampleState 400000 (.body sampleResponse)).zones
      = [rectangleZone 1 "A" true 0 0 10 10, rectangleZone 3 "C" true 5 5 15 15]
    ∧ (getActiveZones sampleState 400000 (.body sampleResponse)).state.zonesCache
      = some [rectangleZone 1 "A" true 0 0 10 10, rectangleZone 3 "C" true 5 5 15 15]
    ∧ (getActiveZones sampleState 400000 (.body sampleResponse)).state.lastZonesFetch
      = 400000 := by
  obtain ⟨h1, h2, h3, _⟩ := getActiveZones_refresh_result sampleState 400000 sampleResponse
    (Or.inr (by decide)) rfl
  have hl : (sampleResponse.data.zones.filter fun z => z.is_active).map convertZone
      = [rectangleZone 1 "A" true 0 0 10 10, rectangleZone 3 "C" true 5 5 15 15] := by
    simp [sampleResponse, rectangleBackendZone, convertZone, rectangleZone, convertCoordinates,
      rectangle]
  rw [hl] at h1 h2
  exact ⟨h1, h2, h3⟩

/-- C13: `isPickupInServiceZone` is true exactly when some zone of the list is
active and has a polygon of at least 3 vertices that `isPointInPolygon` finds
the point in; when every zone of a list is inactive or has fewer than 3
boundary points the result is false; and a zone that `checkZoneCoverage`
returns is active, has at least 3 vertices and contains the point. -/
theorem isPickupInServiceZone_iff (pickup : Coordinates) (zones : List Zone) :
    (isPickupInServiceZone pickup zones = true
        ↔ ∃ z ∈ zones, z.active = true ∧ 3 ≤ z.polygon.length
            ∧ isPointInPolygon pickup z.polygon = true)
    ∧ ((∀ z ∈ zones, z.active = false ∨ z.polygon.length < 3) →
        isPickupInServiceZone pickup zones = false)
    ∧ (∀ (s : CacheState Zone) (now : Int) (outcome : FetchOutcome BackendZoneResponse)
        (z : Zone), (checkZoneCoverage s now outcome pickup).1.zone = some z →
          z.active = true ∧ 3 ≤ z.polygon.length
            ∧ isPointInPolygon pickup z.polygon = true) := by
  have hiff : isPickupInServiceZone pickup zones = true
      ↔ ∃ z ∈ zones, z.active = true ∧ 3 ≤ z.polygon.length
          ∧ isPointInPolygon pickup z.polygon = true := by
    rw [isPickupInServiceZone_eq_any, List.any_eq_true]
    constructor
    · rintro ⟨z, hz, hm⟩
      exact ⟨z, hz, (zoneMatches_iff_three pickup z).mp hm⟩
    · rintro ⟨z, hz, hm⟩
      exact ⟨z, hz, (zoneMatches_iff_three pickup z).mpr hm⟩
  refine ⟨hiff, ?_, ?_⟩
  · intro hall
    cases hr : isPickupInServiceZone pickup zones
    · rfl
    · obtain ⟨z, hz, ha, hl, _⟩ := hiff.mp hr
      rcases hall z hz with h | h
      · rw [ha] at h
        exact Bool.noConfusion h
      · omega
  · intro s now outcome z hz
    exact (zoneMatches_iff_three pickup z).mp
      (result_zone_matches pickup _ z hz).2

/-- An inactive square and an active zone of two points around (5,5): the
pickup is not in a service zone. -/
theorem isPickupInServiceZone_iff_witness :
    isPickupInServiceZone ⟨5, 5⟩
      [rectangleZone 1 "A" false 0 0 10 10,
       { rectangleZone 2 "B" true 0 0 10 10 with polygon := [⟨0, 0⟩, ⟨10, 10⟩] }] = false :=
  (isPickupInServiceZone_iff ⟨5, 5⟩
    [rectangleZone 1 "A" false 0 0 10 10,
     { rectangleZone 2 "B" true 0 0 10 10 with polygon := [⟨0, 0⟩, ⟨10, 10⟩] }]).2.1
    (by
      intro z hz
      simp only [List.mem_cons, List.mem_singleton, List.not_mem_nil, or_false] at hz
      rcases hz with rfl | rfl
      · exact Or.inl rfl
      · exact Or.inr (by simp))

/-- C14: for every test point and every edge, the divisor `yj - yi` is non-zero
whenever the latitude guard `(yi > lat) !== (yj > lat)` holds, which is the
only case in which `&&` evaluates the division; so the evaluation of the loop
condition, and of `isPointInPolygon` on every polygon, never divides by zero:
the checked evaluation always yields the value of the unchecked one. -/
theorem isPointInPolygon_no_division_by_zero (point : Coordinates) :
    (∀ pi pj : Coordinates,
        latitudeGuard point.lat pi.lat pj.lat = true → pj.lat - pi.lat ≠ 0)
    ∧ (∀ pi pj : Coordinates,
        edgeToggles.checked point pi pj = some (edgeToggles point pi pj))
    ∧ (∀ polygon : List Coordinates,
        isPointInPolygon.checked point polygon = some (isPointInPolygon point polygon)) := by
  refine ⟨fun pi pj h => divisor_ne_zero_of_guard _ _ _ h, edgeToggles_checked point, ?_⟩
  intro polygon
  by_cases h : polygon.length < 3
  · rw [isPointInPolygon.checked, dif_pos h, isPointInPolygon, dif_pos h]
  · rw [isPointInPolygon.checked, dif_neg h, isPointInPolygon, dif_neg h]
    exact checkedLoop_eq_loop point polygon _ 0 _ false rfl

/-- For the point (5,5) and the edge from (10,10) back to (0,10) the guard holds
and the divisor is `0 - 10`. -/
theorem isPointInPolygon_no_division_by_zero_witness :
    (⟨0, 10⟩ : Coordinates).lat - (⟨10, 10⟩ : Coordinates).lat ≠ 0 :=
  (isPointInPolygon_no_division_by_zero ⟨5, 5⟩).1 ⟨10, 10⟩ ⟨0, 10⟩
    (by simp [latitudeGuard]; norm_num)

/-- C15: over exact arithmetic, for every edge with `yi ≠ yj` the longitude the
code interpolates, `(xj - xi) * (lat - yi) / (yj - yi) + xi`, is the
specification's `lngj + (lngi - lngj) * (lat - latj) / (lati - latj)`; the
code's toggle condition is the specification's on every edge; and
`isPointInPolygon` is the specified even-odd ray casting on every polygon and
point. -/
theorem isPointInPolygon_eq_spec (point : Coordinates) :
    (∀ pi pj : Coordinates, pi.lat ≠ pj.lat →
        (pj.lng - pi.lng) * (point.lat - pi.lat) / (pj.lat - pi.lat) + pi.lng
          = specInterpolatedLng point.lat pi pj)
    ∧ (∀ pi pj : Coordinates, edgeToggles point pi pj = specEdgeToggles point pi pj)
    ∧ (∀ polygon : List Coordinates,
        isPointInPolygon point polygon = specIsPointInPolygon point polygon) := by
  refine ⟨fun pi pj h => interpolation_eq_spec point.lat pi pj h, edgeToggles_eq_spec point, ?_⟩
  intro polygon
  by_cases h : polygon.length < 3
  · rw [isPointInPolygon, dif_pos h, specIsPointInPolygon, if_pos h]
  · rw [isPointInPolygon, dif_neg h, specIsPointInPolygon, if_neg h]
    exact loop_eq_specInsideAfter point polygon _ 0 _ rfl (Nat.zero_le _)
      (by rw [specPreviousIndex_zero _ (by omega)])

/-- At latitude 5 the edge from (10,10) back to (0,10) is interpolated at
longitude 10 by the code and by the specification. -/
theorem isPointInPolygon_eq_spec_witness :
    ((⟨0, 10⟩ : Coordinates).lng - (⟨10, 10⟩ : Coordinates).lng)
          * ((⟨5, 5⟩ : Coordinates).lat - (⟨10, 10⟩ : Coordinates).lat)
          / ((⟨0, 10⟩ : Coordinates).lat - (⟨10, 10⟩ : Coordinates).lat)
        + (⟨10, 10⟩ : Coordinates).lng
      = specInterpolatedLng (⟨5, 5⟩ : Coordinates).lat ⟨10, 10⟩ ⟨0, 10⟩ :=
  (isPointInPolygon_eq_spec ⟨5, 5⟩).1 ⟨10, 10⟩ ⟨0, 10⟩ (by norm_num)

/-- C16, as stated, fails: for `yi = 10`, `yj = 0` and `lat = 0` the guard
holds, and `lat` is not strictly between 0 and 10. -/
theorem latitudeGuard_at_lower_endpoint :
    latitudeGuard 0 10 0 = true ∧ ¬ (min (10 : ℚ) 0 < 0 ∧ (0 : ℚ) < max 10 0) := by
  constructor
  · simp [latitudeGuard]
  · norm_num

/-- C16, amended: the guard `(yi > lat) !== (yj > lat)` used by
`isPointInPolygon` holds exactly when `min(yi, yj) ≤ lat < max(yi, yj)`: the
lower end point of the edge counts, the upper one does not. -/
theorem latitudeGuard_iff_half_open (lat yi yj : ℚ) :
    (latitudeGuard lat yi yj = true ↔ min yi yj ≤ lat ∧ lat < max yi yj)
    ∧ (∀ point pi pj : Coordinates, edgeToggles point pi pj
        = (latitudeGuard point.lat pi.lat pj.lat
            && decide (point.lng
                < (pj.lng - pi.lng) * (point.lat - pi.lat) / (pj.lat - pi.lat) + pi.lng))) := by
  refine ⟨?_, fun point pi pj => edgeToggles_eq_guard_and point pi pj⟩
  rw [latitudeGuard_iff]
  rcases le_total yi yj with h | h
  · rw [min_eq_left h, max_eq_right h]
    constructor
    · rintro (⟨h1, h2⟩ | ⟨h1, h2⟩)
      · exact absurd (lt_of_lt_of_le h2 h) (not_lt.mpr h1)
      · exact ⟨h1, h2⟩
    · rintro ⟨h1, h2⟩
      exact Or.inr ⟨h1, h2⟩
  · rw [min_eq_right h, max_eq_left h]
    constructor
    · rintro (⟨h1, h2⟩ | ⟨h1, h2⟩)
      · exact ⟨h1, h2⟩
      · exact absurd (lt_of_lt_of_le h2 h) (not_lt.mpr h1)
    · rintro ⟨h1, h2⟩
      exact Or.inl ⟨h1, h2⟩

/-- C17: for every list of `[lat, lng]` pairs, `convertCoordinates` returns a
list of the same length whose `k`-th element is `{lat: input[k][0], lng:
input[k][1]}`; and for every backend zone whose `polygon_coordinates` is null or
absent (`none`) or empty, `convertZone` yields an empty polygon. At run time,
on any zone object whose `polygon_coordinates` member is absent, `null` or `[]`,
`convertZone` returns (throws nothing) and the polygon it builds is empty. -/
theorem convertCoordinates_elementwise (pairs : List (ℚ × ℚ)) :
    (convertCoordinates pairs).length = pairs.length
    ∧ (∀ k : Nat, (convertCoordinates pairs)[k]?
        = pairs[k]?.map fun p => ({ lat := p.1, lng := p.2 } : Coordinates))
    ∧ (∀ b : BackendZone, b.polygon_coordinates = none ∨ b.polygon_coordinates = some [] →
        (convertZone b).polygon = [])
    ∧ (∀ members : List (String × JsValue),
        members.lookup "polygon_coordinates" = none
          ∨ members.lookup "polygon_coordinates" = some .null
          ∨ members.lookup "polygon_coordinates" = some (.array []) →
        ∃ zone, convertZoneRuntime (.object members) = .ok zone ∧ zone.polygon = []) := by
  refine ⟨by simp [convertCoordinates], ?_, ?_, convertZoneRuntime_empty_polygon⟩
  · intro k
    simp [convertCoordinates]
  · intro b hb
    rcases hb with hb | hb <;> simp [convertZone, hb, convertCoordinates]

/-- A backend zone without `polygon_coordinates` converts to a zone with an
empty polygon. -/
theorem convertCoordinates_elementwise_witness :
    (convertZone { rectangleBackendZone 1 "A" true 0 0 10 10 with
        polygon_coordinates := none }).polygon = [] :=
  (convertCoordinates_elementwise []).2.2.1
    { rectangleBackendZone 1 "A" true 0 0 10 10 with polygon_coordinates := none }
    (Or.inl rfl)

/-- C18: for every list of `[lat, lng]` pairs, `convertCoordinates` followed by
the admin page's encoding (`[point.lat(), point.lng()]` for each point, in
order) gives the original list; and for every list of coordinates, the encoding
followed by `convertCoordinates` gives the original list. -/
theorem convertCoordinates_round_trip :
    (∀ pairs : List (ℚ × ℚ),
        polygoncomplete.polygonCoordinates (convertCoordinates pairs) = pairs)
    ∧ (∀ path : List Coordinates,
        convertCoordinates (polygoncomplete.polygonCoordinates path) = path) := by
  constructor
  · intro pairs
    have h : ((fun c : Coordinates => (c.lat, c.lng))
        ∘ fun p : ℚ × ℚ => ({ lat := p.1, lng := p.2 } : Coordinates)) = id := by
      funext p
      rfl
    rw [polygonCoordinates_eq_map, convertCoordinates, List.map_map, h, List.map_id]
  · intro path
    have h : ((fun p : ℚ × ℚ => ({ lat := p.1, lng := p.2 } : Coordinates))
        ∘ fun c : Coordinates => (c.lat, c.lng)) = id := by
      funext c
      rfl
    rw [polygonCoordinates_eq_map, convertCoordinates, List.map_map, h, List.map_id]

/-- C19, as stated, fails: `active` is one of the fields carried through, and
the same square zone gives `isPickupInServiceZone` true when active and false
when inactive; and two snapshots that differ only in the `id` of their zone
make `checkZoneCoverage` return different zones. -/
theorem carried_fields_reach_the_results :
    isPickupInServiceZone ⟨5, 5⟩ [rectangleZone 1 "A" true 0 0 10 10] = true
    ∧ isPickupInServiceZone ⟨5, 5⟩ [rectangleZone 1 "A" false 0 0 10 10] = false
    ∧ (checkZoneCoverage
        { zonesCache := some [rectangleZone 1 "A" true 0 0 10 10], lastZonesFetch := 0 }
        1000 .rejected ⟨5, 5⟩).1.zone = some (rectangleZone 1 "A" true 0 0 10 10)
    ∧ (checkZoneCoverage
        { zonesCache := some [rectangleZone 2 "A" true 0 0 10 10], lastZonesFetch := 0 }
        1000 .rejected ⟨5, 5⟩).1.zone = some (rectangleZone 2 "A" true 0 0 10 10)
    ∧ rectangleZone 1 "A" true 0 0 10 10 ≠ rectangleZone 2 "A" true 0 0 10 10 := by
  have hin : isPointInPolygon ⟨5, 5⟩ (rectangle 0 0 10 10) = true :=
    rectangle_inside 0 0 10 10 5 5 (by norm_num) (by norm_num)
  have hcov : ∀ id : ℚ, (checkZoneCoverage
      { zonesCache := some [rectangleZone id "A" true 0 0 10 10], lastZonesFetch := 0 }
      1000 .rejected ⟨5, 5⟩).1.zone = some (rectangleZone id "A" true 0 0 10 10) := by
    intro id
    have hz : (getActiveZones
        { zonesCache := some [rectangleZone id "A" true 0 0 10 10], lastZonesFetch := 0 }
        1000 .rejected).zones = [rectangleZone id "A" true 0 0 10 10] := by
      rw [getActiveZones, around_fresh _ _ _ _ rfl (by simp [ZONES_CACHE_DURATION])]
    have hm : zoneMatches ⟨5, 5⟩ (rectangleZone id "A" true 0 0 10 10) = true :=
      (zoneMatches_iff _ _).mpr ⟨rfl, hin⟩
    simp only [checkZoneCoverage, hz]
    rw [result_of_ne_nil _ _ (List.cons_ne_nil _ _)]
    have hs := scan_append_match ⟨5, 5⟩ [] (rectangleZone id "A" true 0 0 10 10) []
      (fun y hy => absurd hy (List.not_mem_nil y)) hm
    rw [List.nil_append] at hs
    rw [hs]
  refine ⟨?_, ?_, hcov 1, hcov 2, ?_⟩
  · rw [isPickupInServiceZone_eq_any, List.any_cons,
      (zoneMatches_iff _ _).mpr ⟨rfl, hin⟩]
    rfl
  · rw [isPickupInServiceZone_eq_any, List.any_cons,
      not_zoneMatches _ _ (fun h => Bool.noConfusion h.1)]
    rfl
  · intro h
    have hid := congrArg Zone.id h
    simp [rectangleZone] at hid

/-- C19, amended: for every backend zone `b`, `convertZone b` has `id = b.id`,
`name = b.zone_name`, `active = b.is_active`, the eight numeric members equal to
those of the same name in `b`, and empty `rings.inner` and `rings.outer`. No
member of a zone other than `active` and `polygon` influences
`isPointInPolygon`, `isPickupInServiceZone`, or the `inServiceZone`, the
`message` and the choice of zone of `checkZoneCoverage`: for every change `f` of
zones that keeps `active` and `polygon`, the results on the changed list are
those on the original list, the returned zone being the changed one. -/
theorem convertZone_carries_fields (b : BackendZone) :
    ((convertZone b).id = b.id ∧ (convertZone b).name = b.zone_name
      ∧ (convertZone b).active = b.is_active
      ∧ (convertZone b).center_lat = b.center_lat
      ∧ (convertZone b).center_lng = b.center_lng
      ∧ (convertZone b).radius_km = b.radius_km
      ∧ (convertZone b).number_of_rings = b.number_of_rings
      ∧ (convertZone b).ring_radius_meters = b.ring_radius_meters
      ∧ (convertZone b).ring_wait_time_seconds = b.ring_wait_time_seconds
      ∧ (convertZone b).expansion_delay_sec = b.expansion_delay_sec
      ∧ (convertZone b).priority_order = b.priority_order
      ∧ (convertZone b).rings.inner = [] ∧ (convertZone b).rings.outer = [])
    ∧ (∀ f : Zone → Zone, (∀ z, (f z).active = z.active ∧ (f z).polygon = z.polygon) →
        ∀ (pickup : Coordinates) (zones : List Zone),
          (∀ z, isPointInPolygon pickup (f z).polygon = isPointInPolygon pickup z.polygon)
          ∧ isPickupInServiceZone pickup (zones.map f) = isPickupInServiceZone pickup zones
          ∧ checkZoneCoverage.result pickup (zones.map f)
            = { inServiceZone := (checkZoneCoverage.result pickup zones).inServiceZone
                zone := (checkZoneCoverage.result pickup zones).zone.map f
                message := (checkZoneCoverage.result pickup zones).message })
    ∧ (∀ (s : CacheState Zone) (now : Int) (outcome : FetchOutcome BackendZoneResponse)
        (pickup : Coordinates), (checkZoneCoverage s now outcome pickup).1
          = checkZoneCoverage.result pickup (getActiveZones s now outcome).zones) := by
  refine ⟨⟨rfl, rfl, rfl, rfl, rfl, rfl, rfl, rfl, rfl, rfl, rfl, rfl, rfl⟩, ?_, ?_⟩
  · intro f hf pickup zones
    refine ⟨fun z => by rw [(hf z).2], isPickupInServiceZone_map pickup f hf zones,
      result_map pickup f hf zones⟩
  · intro s now outcome pickup
    rfl

/-- Renumbering the zones (`id` increased by 100) leaves `isPickupInServiceZone`
as it was. -/
theorem convertZone_carries_fields_witness :
    isPickupInServiceZone ⟨5, 5⟩
        ([rectangleZone 1 "A" true 0 0 10 10].map fun z => { z with id := z.id + 100 })
      = isPickupInServiceZone ⟨5, 5⟩ [rectangleZone 1 "A" true 0 0 10 10] :=
  ((convertZone_carries_fields (rectangleBackendZone 1 "A" true 0 0 10 10)).2.1
    (fun z => { z with id := z.id + 100 }) (fun _ => ⟨rfl, rfl⟩) ⟨5, 5⟩
    [rectangleZone 1 "A" true 0 0 10 10]).2.1

/-- C20 fails on the code: `testZoneConnection` returns true when the fetch
fails. With no snapshot, it resolves to true when `fetch` rejects, when the
response has status 500, and when the payload's status is 'error'; indeed it
resolves to true in every state and for every answer of the network. -/
theorem testZoneConnection_true_on_failure :
    (testZoneConnection CacheState.initial 1000 .rejected).1 = true
    ∧ (testZoneConnection CacheState.initial 1000 (.notOk 500 "Internal Server Error")).1 = true
    ∧ (testZoneConnection CacheState.initial 1000
        (.body { status := "error", message := "no zones", data := { zones := [] } })).1 = true
    ∧ (∀ (s : CacheState Zone) (now : Int) (outcome : FetchOutcome BackendZoneResponse),
        (testZoneConnection s now outcome).1 = true) :=
  ⟨rfl, rfl, rfl, fun _ _ _ => rfl⟩

/-- C21: over exact arithmetic, for every polygon and every point outside the
polygon's bounding box (`lat` below every vertex latitude, or above every one,
or `lng` below every vertex longitude, or above every one), `isPointInPolygon`
returns false. For `lng` below every vertex longitude the reason is the one
given: the result on a polygon of at least 3 vertices is the parity of the
number of edges of the closed vertex cycle that toggle, an edge then toggles
exactly when its latitude guard holds, and the number of edges on which the
latitude guard holds is even in every closed vertex cycle. -/
theorem isPointInPolygon_outside_bounding_box (point : Coordinates)
    (polygon : List Coordinates)
    (h : (∀ v ∈ polygon, point.lat < v.lat) ∨ (∀ v ∈ polygon, v.lat < point.lat)
      ∨ (∀ v ∈ polygon, point.lng < v.lng) ∨ (∀ v ∈ polygon, v.lng < point.lng)) :
    isPointInPolygon point polygon = false
      ∧ (3 ≤ polygon.length → isPointInPolygon point polygon
          = decide (Odd ((cycleEdges polygon).countP fun e => edgeToggles point e.1 e.2)))
      ∧ ((∀ v ∈ polygon, point.lng < v.lng) → ∀ e ∈ cycleEdges polygon,
          edgeToggles point e.1 e.2 = latitudeGuard point.lat e.1.lat e.2.lat)
      ∧ Even ((cycleEdges polygon).countP fun e =>
          latitudeGuard point.lat e.1.lat e.2.lat) := by
  refine ⟨?_, isPointInPolygon_eq_odd_countP point polygon,
    fun hall e he => edgeToggles_eq_guard_of_lng_below point e.1 e.2
      (hall _ (mem_cycleEdges polygon e he).1) (hall _ (mem_cycleEdges polygon e he).2),
    even_countP_cycleEdges_guard point.lat polygon⟩
  rcases h with h | h | h | h
  · exact isPointInPolygon_of_xor point (fun v => point.lat < v.lat) (fun _ => false)
      (fun a b ha hb => edgeToggles_lat_below point a b ha hb) polygon h
  · exact isPointInPolygon_of_xor point (fun v => v.lat < point.lat) (fun _ => false)
      (fun a b ha hb => edgeToggles_lat_above point a b ha hb) polygon h
  · exact isPointInPolygon_of_xor point (fun v => point.lng < v.lng)
      (fun v => decide (v.lat > point.lat))
      (fun a b ha hb => edgeToggles_lng_below point a b ha hb) polygon h
  · exact isPointInPolygon_of_xor point (fun v => v.lng < point.lng) (fun _ => false)
      (fun a b ha hb => edgeToggles_lng_above point a b ha hb) polygon h

/-- The point (5,-3) lies west of the triangle (0,0), (10,4), (3,9) and is not
inside it. -/
theorem isPointInPolygon_outside_bounding_box_witness :
    isPointInPolygon ⟨5, -3⟩ [⟨0, 0⟩, ⟨10, 4⟩, ⟨3, 9⟩] = false :=
  (isPointInPolygon_outside_bounding_box ⟨5, -3⟩ [⟨0, 0⟩, ⟨10, 4⟩, ⟨3, 9⟩]
    (Or.inr (Or.inr (Or.inl (by
      intro v hv
      simp only [List.mem_cons, List.mem_singleton, List.not_mem_nil, or_false] at hv
      rcases hv with rfl | rfl | rfl <;> norm_num))))).1

/-- C22: over exact arithmetic, the earlier `isPointInPolygon` (no test of the
length) returns, without throwing, the value of the `isPointInPolygon` of
`CORRECTED_zones.ts` for every point and polygon; and for zone lists with the
same `active` flags and polygons the two versions of `isPickupInServiceZone`
return the same value. -/
theorem attached_versions_agree (pickup : Coordinates) :
    (∀ polygon : List Coordinates,
        Attached.isPointInPolygon pickup polygon = some (isPointInPolygon pickup polygon))
    ∧ (∀ (zones : List Attached.Zone) (zones' : List Zone),
        List.Forall₂ (fun (z : Attached.Zone) (z' : Zone) =>
          z.active = z'.active ∧ z.polygon = z'.polygon) zones zones' →
        Attached.isPickupInServiceZone pickup zones
          = some (isPickupInServiceZone pickup zones')) :=
  ⟨attached_isPointInPolygon_eq pickup, attached_isPickupInServiceZone_eq pickup⟩

/-- An active zone of two points around (5,5): both versions answer false. -/
theorem attached_versions_agree_witness :
    Attached.isPickupInServiceZone ⟨5, 5⟩
        [{ id := "2", name := "B", polygon := [⟨0, 0⟩, ⟨10, 10⟩],
           rings := { inner := [], outer := [] }, active := true }]
      = some (isPickupInServiceZone ⟨5, 5⟩
          [{ rectangleZone 2 "B" true 0 0 10 10 with polygon := [⟨0, 0⟩, ⟨10, 10⟩] }]) :=
  (attached_versions_agree ⟨5, 5⟩).2 _ _
    (List.Forall₂.cons ⟨rfl, rfl⟩ List.Forall₂.nil)

/-- C23: in every state reached from the initial state (`zonesCache = null`,
`lastZonesFetch = 0`) by any sequence of `getActiveZones` calls (with any clock
values and any answers of the network) and `clearZonesCache` calls, every zone
held in `zonesCache` has `active = true`, and `lastZonesFetch = 0` whenever
`zonesCache` is null; and every zone that a further `getActiveZones` call
returns is active. -/
theorem cache_invariant (calls : List CacheCall) :
    (∀ zones, (runCalls CacheState.initial calls).zonesCache = some zones →
        ∀ z ∈ zones, z.active = true)
    ∧ ((runCalls CacheState.initial calls).zonesCache = none →
        (runCalls CacheState.initial calls).lastZonesFetch = 0)
    ∧ (∀ (now : Int) (outcome : FetchOutcome BackendZoneResponse),
        ∀ z ∈ (getActiveZones (runCalls CacheState.initial calls) now outcome).zones,
          z.active = true) := by
  have h := cacheInvariant_runCalls calls CacheState.initial cacheInvariant_initial
  exact ⟨h.1, h.2, fun now outcome => (cacheInvariant_getActiveZones _ now outcome h).2⟩

/-- After a successful refresh at 1000, a clear, and a rejected fetch at 2000,
there is no snapshot and `lastZonesFetch` is 0. -/
theorem cache_invariant_witness :
    (runCalls CacheState.initial
        [.getActiveZones 1000 (.body sampleResponse), .clearZonesCache,
          .getActiveZones 2000 .rejected]).lastZonesFetch = 0 :=
  (cache_invariant
    [.getActiveZones 1000 (.body sampleResponse), .clearZonesCache,
      .getActiveZones 2000 .rejected]).2.1
    (by
      simp only [runCalls, CacheCall.run, clearZonesCache]
      have hr : getActiveZones.refresh .rejected = .error "fetch rejected" := rfl
      rw [getActiveZones, hr, around_error _ _ _ (Or.inl rfl)])

/-- C24: for every point and every non-empty zone list that `getActiveZones`
returns, the `inServiceZone` member of the result of `checkZoneCoverage` equals
`isPickupInServiceZone(point, zones)`; and in every result of
`checkZoneCoverage` the `zone` member is present exactly when `inServiceZone` is
true and the `message` member is present exactly when `inServiceZone` is false. -/
theorem checkZoneCoverage_members (s : CacheState Zone) (now : Int)
    (outcome : FetchOutcome BackendZoneResponse) (pickup : Coordinates) :
    ((getActiveZones s now outcome).zones ≠ [] →
        (checkZoneCoverage s now outcome pickup).1.inServiceZone
          = isPickupInServiceZone pickup (getActiveZones s now outcome).zones)
    ∧ ((checkZoneCoverage s now outcome pickup).1.zone.isSome = true
        ↔ (checkZoneCoverage s now outcome pickup).1.inServiceZone = true)
    ∧ ((checkZoneCoverage s now outcome pickup).1.message.isSome = true
        ↔ (checkZoneCoverage s now outcome pickup).1.inServiceZone = false) := by
  refine ⟨?_, (result_members pickup _).1, (result_members pickup _).2⟩
  intro hne
  simp only [checkZoneCoverage]
  rw [result_of_ne_nil pickup _ hne, scan_inServiceZone]

/-- With the square (0,0)-(10,10) cached, the point (5,5) is in a service zone
for both functions. -/
theorem checkZoneCoverage_members_witness :
    (checkZoneCoverage
        { zonesCache := some [rectangleZone 1 "A" true 0 0 10 10], lastZonesFetch := 0 }
        1000 .rejected ⟨5, 5⟩).1.inServiceZone
      = isPickupInServiceZone ⟨5, 5⟩
          (getActiveZones
            { zonesCache := some [rectangleZone 1 "A" true 0 0 10 10], lastZonesFetch := 0 }
            1000 .rejected).zones :=
  (checkZoneCoverage_members
    { zonesCache := some [rectangleZone 1 "A" true 0 0 10 10], lastZonesFetch := 0 }
    1000 .rejected ⟨5, 5⟩).1
    (by
      rw [getActiveZones, around_fresh _ _ _ _ rfl (by simp [ZONES_CACHE_DURATION])]
      exact List.cons_ne_nil _ _)

end Zones

namespace WebSocketClient

open Zones (JsValue)

/-! ## The handler registry on names that are not inherited -/

theorem lookup_of_not_inherited (c : WebSocketClient) (event : String)
    (h : event ∉ objectPrototypeMembers) :
    c.lookup event
      = match c.eventHandlers event with
        | some hs => .handlers hs
        | none => .absent := by
  rw [lookup]
  cases c.eventHandlers event with
  | some hs => rfl
  | none => simp [h]

theorem forEach_no_timer (throws : Handler → JsValue → Bool) (event : String)
    (data : JsValue) (hs : List Handler) (delay : ℚ) :
    Effect.setTimeout delay ∉ trigger.forEach throws event data hs := by
  induction hs with
  | nil => simp [trigger.forEach]
  | cons handler rest ih =>
    rw [trigger.forEach]
    split <;> simp [ih]

theorem calls_forEach (throws : Handler → JsValue → Bool) (event : String)
    (data : JsValue) (hs : List Handler) :
    calls (trigger.forEach throws event data hs) = hs.map fun handler => (handler, data) := by
  induction hs with
  | nil => rfl
  | cons handler rest ih =>
    rw [trigger.forEach]
    split <;> simp [calls, ih]

theorem trigger_of_not_inherited (throws : Handler → JsValue → Bool) (c : WebSocketClient)
    (event : String) (data : JsValue) (h : event ∉ objectPrototypeMembers) :
    trigger throws c event data
      = .ok (trigger.forEach throws event (trigger.defaulted data)
          ((c.eventHandlers event).getD [])) := by
  rw [trigger, lookup_of_not_inherited c event h]
  cases c.eventHandlers event with
  | some hs => rfl
  | none => rfl

theorem erase_by_index (hs : List Handler) (handler : Handler) :
    (match hs.indexOf? handler with
      | some index => hs.eraseIdx index
      | none => hs) = hs.erase handler := by
  induction hs with
  | nil => rfl
  | cons x xs ih =>
    rw [List.indexOf?_cons, List.erase_cons]
    by_cases hx : (x == handler) = true
    · simp [hx]
    · simp only [hx, Bool.false_eq_true, ↓reduceIte]
      cases hidx : xs.indexOf? handler with
      | none =>
        rw [hidx] at ih
        simp [← ih]
      | some index =>
        rw [hidx] at ih
        simp [← ih]

/-- On an event name that `eventHandlers` does not inherit, `on` appends the
handler to the registrations of that event, `off` removes its first
registration there, both leave the other events as they were, and `trigger`
calls the registered handlers of that event, each once per registration, in
registration order, with the data (or `null`), whether or not one throws. -/
theorem registry_of_not_inherited (throws : Handler → JsValue → Bool) (c : WebSocketClient)
    (event : String) (handler : Handler) (data : JsValue)
    (h : event ∉ objectPrototypeMembers) :
    (∃ c', onMethod c event handler = .ok c'
        ∧ c'.eventHandlers event = some ((c.eventHandlers event).getD [] ++ [handler])
        ∧ ∀ e, e ≠ event → c'.eventHandlers e = c.eventHandlers e)
    ∧ (∃ c', offMethod c event handler = .ok c'
        ∧ c'.eventHandlers event = (c.eventHandlers event).map (fun hs => hs.erase handler)
        ∧ ∀ e, e ≠ event → c'.eventHandlers e = c.eventHandlers e)
    ∧ (∃ effects, trigger throws c event data = .ok effects
        ∧ calls effects = ((c.eventHandlers event).getD []).map fun registered =>
            (registered, trigger.defaulted data)) := by
  refine ⟨?_, ?_, ?_⟩
  · rw [onMethod, lookup_of_not_inherited c event h]
    cases hc : c.eventHandlers event with
    | none =>
      exact ⟨_, rfl, by simp [setHandlers], fun e he => by simp [setHandlers, he]⟩
    | some hs =>
      exact ⟨_, rfl, by simp [setHandlers], fun e he => by simp [setHandlers, he]⟩
  · rw [offMethod, lookup_of_not_inherited c event h]
    cases hc : c.eventHandlers event with
    | none => exact ⟨c, rfl, by simp [hc], fun _ _ => rfl⟩
    | some hs =>
      have he := erase_by_index hs handler
      cases hidx : hs.indexOf? handler with
      | none =>
        rw [hidx] at he
        simp only at he
        refine ⟨c, by simp only [hidx], ?_, fun _ _ => rfl⟩
        rw [hc, Option.map_some', ← he]
      | some index =>
        rw [hidx] at he
        simp only at he
        exact ⟨c.setHandlers event (hs.eraseIdx index), by simp only [hidx],
          by simp [setHandlers, he], fun e hne => by simp [setHandlers, hne]⟩
  · rw [trigger_of_not_inherited throws c event data h]
    exact ⟨_, rfl, calls_forEach _ _ _ _⟩

/-! ## The reconnect counter -/

theorem scheduleReconnect_below (throws : Handler → JsValue → Bool) (c : WebSocketClient)
    (h : c.reconnectAttempts < c.config.maxReconnectAttempts) :
    scheduleReconnect throws c
      = .ok ({ c with reconnectAttempts := c.reconnectAttempts + 1 },
             [.setTimeout c.config.reconnectInterval]) := by
  rw [scheduleReconnect, if_neg (by omega)]

theorem scheduleReconnect_at_limit (throws : Handler → JsValue → Bool) (c : WebSocketClient)
    (h : c.reconnectAttempts ≥ c.config.maxReconnectAttempts) :
    ∃ effects, scheduleReconnect throws c = .ok (c, effects)
      ∧ trigger throws c "max_reconnect_attempts_reached" .undefined = .ok effects
      ∧ ∀ delay, Effect.setTimeout delay ∉ effects := by
  have ht := trigger_of_not_inherited throws c "max_reconnect_attempts_reached" .undefined
    (by decide)
  refine ⟨_, ?_, ht, fun delay => forEach_no_timer _ _ _ _ delay⟩
  rw [scheduleReconnect, if_pos h, ht]

theorem scheduleReconnect_bounded (throws : Handler → JsValue → Bool) (c : WebSocketClient)
    (h0 : 0 ≤ c.reconnectAttempts)
    (h1 : c.reconnectAttempts ≤ c.config.maxReconnectAttempts) :
    ∃ c' effects, scheduleReconnect throws c = .ok (c', effects) ∧ c'.config = c.config
      ∧ c'.eventHandlers = c.eventHandlers
      ∧ 0 ≤ c'.reconnectAttempts ∧ c'.reconnectAttempts ≤ c'.config.maxReconnectAttempts := by
  by_cases h : c.reconnectAttempts < c.config.maxReconnectAttempts
  · refine ⟨_, _, scheduleReconnect_below throws c h, rfl, rfl, ?_, ?_⟩
    · simp only
      omega
    · simp only
      omega
  · obtain ⟨effects, hs, _, _⟩ := scheduleReconnect_at_limit throws c (by omega)
    exact ⟨c, effects, hs, rfl, rfl, h0, h1⟩

theorem onConnect_resets (throws : Handler → JsValue → Bool) (c : WebSocketClient) :
    ∃ effects, onConnect throws c
      = .ok ({ c with connected := true, reconnectAttempts := 0 }, effects) := by
  have ht := trigger_of_not_inherited throws
    { c with connected := true, reconnectAttempts := 0 } "connected" .undefined (by decide)
  exact ⟨_, by rw [onConnect, ht]⟩

theorem onDisconnect_returns (throws : Handler → JsValue → Bool) (c : WebSocketClient)
    (reason : String) (h0 : 0 ≤ c.reconnectAttempts)
    (h1 : c.reconnectAttempts ≤ c.config.maxReconnectAttempts) :
    ∃ c' effects, onDisconnect throws c reason = .ok (c', effects) ∧ c'.config = c.config
      ∧ 0 ≤ c'.reconnectAttempts ∧ c'.reconnectAttempts ≤ c'.config.maxReconnectAttempts := by
  have ht := trigger_of_not_inherited throws { c with connected := false } "disconnected"
    (.string reason) (by decide)
  by_cases hr : onDisconnect.reconnects reason = true
  · obtain ⟨c', effects, hs, hc, _, h0', h1'⟩ :=
      scheduleReconnect_bounded throws { c with connected := false } h0 h1
    have hl : ∃ all, onDisconnect throws c reason = .ok (c', all) := by
      simp only [onDisconnect, ht, hr, if_true, hs]
      exact ⟨_, rfl⟩
    obtain ⟨all, hl⟩ := hl
    exact ⟨c', all, hl, hc, h0', h1'⟩
  · have hl : ∃ all, onDisconnect throws c reason
        = .ok ({ c with connected := false }, all) := by
      simp only [onDisconnect, ht, hr, Bool.false_eq_true, if_false]
      exact ⟨_, rfl⟩
    obtain ⟨all, hl⟩ := hl
    exact ⟨_, all, hl, rfl, h0, h1⟩

/-- The 'connect_error' listener throws exactly when `error` is `null` or
`undefined`, at the read of `error.message`, with the state as it was; else it
returns, and the counter stays within the bounds. -/
theorem onConnectError_cases (throws : Handler → JsValue → Bool) (c : WebSocketClient)
    (error : JsValue) (h0 : 0 ≤ c.reconnectAttempts)
    (h1 : c.reconnectAttempts ≤ c.config.maxReconnectAttempts) :
    ((error = .null ∨ error = .undefined) ∧ ∃ e, onConnectError throws c error = .error (c, e))
      ∨ (error ≠ .null ∧ error ≠ .undefined
        ∧ ∃ c' effects, onConnectError throws c error = .ok (c', effects)
          ∧ c'.config = c.config ∧ 0 ≤ c'.reconnectAttempts
          ∧ c'.reconnectAttempts ≤ c'.config.maxReconnectAttempts) := by
  by_cases hn : error = .null
  · subst hn
    exact Or.inl ⟨Or.inl rfl, _, rfl⟩
  by_cases hu : error = .undefined
  · subst hu
    exact Or.inl ⟨Or.inr rfl, _, rfl⟩
  right
  refine ⟨hn, hu, ?_⟩
  have hm : ∃ v, error.member "message" = .ok v := by
    cases error with
    | undefined => exact absurd rfl hu
    | null => exact absurd rfl hn
    | _ => exact ⟨_, rfl⟩
  obtain ⟨v, hm⟩ := hm
  have ht := trigger_of_not_inherited throws c "connection_error" error (by decide)
  obtain ⟨c', effects, hs, hc, _, h0', h1'⟩ := scheduleReconnect_bounded throws c h0 h1
  have hl : ∃ all, onConnectError throws c error = .ok (c', all) := by
    simp only [onConnectError, hm, ht, hs]
    exact ⟨_, rfl⟩
  obtain ⟨all, hl⟩ := hl
  exact ⟨c', all, hl, hc, h0', h1'⟩

theorem listener_bounded (throws : Handler → JsValue → Bool) (c : WebSocketClient)
    (event : SocketEvent) (hmax : 0 ≤ c.config.maxReconnectAttempts)
    (h0 : 0 ≤ c.reconnectAttempts)
    (h1 : c.reconnectAttempts ≤ c.config.maxReconnectAttempts) :
    (stateAfter (listener throws c event)).config = c.config
      ∧ 0 ≤ (stateAfter (listener throws c event)).reconnectAttempts
      ∧ (stateAfter (listener throws c event)).reconnectAttempts
          ≤ (stateAfter (listener throws c event)).config.maxReconnectAttempts := by
  cases event with
  | connect =>
    obtain ⟨effects, he⟩ := onConnect_resets throws c
    rw [listener, he]
    exact ⟨rfl, le_refl _, hmax⟩
  | disconnect reason =>
    obtain ⟨c', effects, he, hc, h0', h1'⟩ := onDisconnect_returns throws c reason h0 h1
    rw [listener, he]
    exact ⟨hc, h0', h1'⟩
  | connectError error =>
    rcases onConnectError_cases throws c error h0 h1 with
      ⟨_, e, he⟩ | ⟨_, _, c', effects, he, hc, h0', h1'⟩
    · rw [listener, he]
      exact ⟨rfl, h0, h1⟩
    · rw [listener, he]
      exact ⟨hc, h0', h1'⟩

theorem runEvents_bounded (throws : Handler → JsValue → Bool) (events : List SocketEvent) :
    ∀ c : WebSocketClient, 0 ≤ c.config.maxReconnectAttempts → 0 ≤ c.reconnectAttempts →
      c.reconnectAttempts ≤ c.config.maxReconnectAttempts →
      (runEvents throws c events).config = c.config
        ∧ 0 ≤ (runEvents throws c events).reconnectAttempts
        ∧ (runEvents throws c events).reconnectAttempts
            ≤ (runEvents throws c events).config.maxReconnectAttempts := by
  induction events with
  | nil => intro c _ h0 h1; exact ⟨rfl, h0, h1⟩
  | cons event rest ih =>
    intro c hmax h0 h1
    obtain ⟨hc, h0', h1'⟩ := listener_bounded throws c event hmax h0 h1
    obtain ⟨hc2, h0'', h1''⟩ := ih _ (by rw [hc]; exact hmax) h0' h1'
    rw [runEvents]
    exact ⟨by rw [hc2, hc], h0'', h1''⟩

theorem reconnects_iff (reason : String) :
    onDisconnect.reconnects reason = true
      ↔ reason = "io server disconnect" ∨ reason = "io client disconnect" := by
  simp [onDisconnect.reconnects]

/-! ## Claims on the real-time client -/

/-- C25: when `maxReconnectAttempts ≥ 0`, from a client whose counter is 0 (as
the constructor leaves it, whatever handlers are registered) every sequence of
'connect', 'disconnect' and 'connect_error' events, whether its listeners
return or throw, leaves `0 ≤ reconnectAttempts ≤ maxReconnectAttempts`.
`scheduleReconnect` below the limit adds exactly 1 to the counter and sets one
timer; at the limit it leaves the state as it was, sets no timer and has the
effects of `trigger('max_reconnect_attempts_reached')`. The 'connect' listener
sets the counter to 0. -/
theorem reconnectAttempts_bounded (throws : Handler → JsValue → Bool) (c : WebSocketClient)
    (hmax : c.config.maxReconnectAttempts ≥ 0) (hzero : c.reconnectAttempts = 0)
    (events : List SocketEvent) :
    ((runEvents throws c events).config = c.config
        ∧ 0 ≤ (runEvents throws c events).reconnectAttempts
        ∧ (runEvents throws c events).reconnectAttempts
            ≤ (runEvents throws c events).config.maxReconnectAttempts)
    ∧ (∀ s : WebSocketClient, s.reconnectAttempts < s.config.maxReconnectAttempts →
        scheduleReconnect throws s
          = .ok ({ s with reconnectAttempts := s.reconnectAttempts + 1 },
                 [.setTimeout s.config.reconnectInterval]))
    ∧ (∀ s : WebSocketClient, s.reconnectAttempts ≥ s.config.maxReconnectAttempts →
        ∃ effects, scheduleReconnect throws s = .ok (s, effects)
          ∧ trigger throws s "max_reconnect_attempts_reached" .undefined = .ok effects
          ∧ ∀ delay, Effect.setTimeout delay ∉ effects)
    ∧ (∀ s : WebSocketClient, ∃ effects, onConnect throws s
        = .ok ({ s with connected := true, reconnectAttempts := 0 }, effects)) :=
  ⟨runEvents_bounded throws events c hmax (by rw [hzero]) (by rw [hzero]; exact hmax),
    scheduleReconnect_below throws, scheduleReconnect_at_limit throws, onConnect_resets throws⟩

/-- With a limit of 2: three connection errors with an error object, and one
with `null` (whose listener throws at `error.message`), leave the counter at 2,
within the bounds; a 'connect' after them sets it to 0. -/
theorem reconnectAttempts_bounded_witness :
    (0 ≤ (runEvents (fun _ _ => false)
          (create { reconnectInterval := 5000, maxReconnectAttempts := 2 })
          [.connectError (.object [("message", .string "timeout")]), .connectError .null,
            .connectError (.object [("message", .string "timeout")]),
            .connectError (.object [("message", .string "timeout")])]).reconnectAttempts
      ∧ (runEvents (fun _ _ => false)
          (create { reconnectInterval := 5000, maxReconnectAttempts := 2 })
          [.connectError (.object [("message", .string "timeout")]), .connectError .null,
            .connectError (.object [("message", .string "timeout")]),
            .connectError (.object [("message", .string "timeout")])]).reconnectAttempts
          ≤ 2)
    ∧ (runEvents (fun _ _ => false)
          (create { reconnectInterval := 5000, maxReconnectAttempts := 2 })
          [.connectError (.object [("message", .string "timeout")]), .connectError .null,
            .connectError (.object [("message", .string "timeout")]),
            .connectError (.object [("message", .string "timeout")])]).reconnectAttempts = 2
    ∧ (runEvents (fun _ _ => false)
          (create { reconnectInterval := 5000, maxReconnectAttempts := 2 })
          [.connectError (.object [("message", .string "timeout")]), .connectError .null,
            .connectError (.object [("message", .string "timeout")]),
            .connectError (.object [("message", .string "timeout")]),
            .connect]).reconnectAttempts = 0 :=
  ⟨(reconnectAttempts_bounded (fun _ _ => false)
      (create { reconnectInterval := 5000, maxReconnectAttempts := 2 })
      (by decide) rfl
      [.connectError (.object [("message", .string "timeout")]), .connectError .null,
        .connectError (.object [("message", .string "timeout")]),
        .connectError (.object [("message", .string "timeout")])]).1.2,
    rfl, rfl⟩

/-- C26 fails on the code: the 'disconnect' listener calls `scheduleReconnect`
when the reason is 'io client disconnect' (on a fresh client the counter goes
to 1 and a retry is set for 5000 ms), and does not call it when the connection
is lost with 'transport close' or 'ping timeout' (no effect, counter 0). It
calls `scheduleReconnect` exactly for 'io server disconnect' and
'io client disconnect'. -/
theorem disconnect_listener_reconnects_after_client_disconnect :
    (onDisconnect (fun _ _ => false) (create Config.default) "io client disconnect").map
        (fun r => (r.1.reconnectAttempts, r.2)) = .ok (1, [.setTimeout 5000])
    ∧ (onDisconnect (fun _ _ => false) (create Config.default) "transport close").map
        (fun r => (r.1.reconnectAttempts, r.2)) = .ok (0, [])
    ∧ (onDisconnect (fun _ _ => false) (create Config.default) "ping timeout").map
        (fun r => (r.1.reconnectAttempts, r.2)) = .ok (0, [])
    ∧ (∀ reason : String, onDisconnect.reconnects reason = true
        ↔ reason = "io server disconnect" ∨ reason = "io client disconnect") :=
  ⟨rfl, rfl, rfl, reconnects_iff⟩

/-- C27 fails on the code: on a fresh client `trigger('toString')` throws a
`TypeError` and calls nothing, and so do `on('toString', h)` and
`off('toString', h)`: the read `this.eventHandlers['toString']` yields the
function inherited from `Object.prototype`, which is truthy and has no
`forEach`, `push` or `indexOf`. -/
theorem trigger_throws_on_inherited_name :
    trigger (fun _ _ => false) (create Config.default) "toString" .undefined
        = .error "TypeError: this.eventHandlers[event].forEach is not a function"
    ∧ (onMethod (create Config.default) "toString" 1).map (fun c => c.reconnectAttempts)
        = .error "TypeError: this.eventHandlers[event].push is not a function"
    ∧ (offMethod (create Config.default) "toString" 1).map (fun c => c.reconnectAttempts)
        = .error "TypeError: this.eventHandlers[event].indexOf is not a function" :=
  ⟨rfl, rfl, rfl⟩

end WebSocketClient
